import Mathlib

/-!
Verification of the RPC wrapper layer (`rpc/rpc-wrappers.go`).

The development shallowly embeds the RPC layer: wire payloads are byte
lists, the JSON codec of the standard library is modelled by an injective
self-describing serialization `serJ`/`deJ` over a JSON value type `JVal`,
domain value objects (out-of-scope collaborators, treated by the spec as
opaque serializable records) are modelled as `DomainVal`, and each Go
handler/stub becomes a Lean function returning its response, error, audit
records and the list of domain methods it invoked.
-/

/-- Wire payloads: Go `[]byte`, one `Nat` per byte. -/
abbrev Bytes := List Nat

/-- JSON values, the intermediate form of the modelled `encoding/json`
codec.  `jbytes` stands for Go `[]byte` fields (base64 strings on the real
wire), `jnum` for JSON numbers. -/
inductive JVal where
  | jnull
  | jbool (b : Bool)
  | jnum (n : Int)
  | jstr (s : String)
  | jbytes (bs : Bytes)
  | jarr (elems : List JVal)
  | jobj (fields : List (String × JVal))

/-- Go `[]byte(s)`: the bytes of a string. -/
def strBytes (s : String) : Bytes := s.data.map Char.toNat

/-- Go `string(bs)`: the string formed from raw bytes. -/
def bytesStr (bs : Bytes) : String := ⟨bs.map Char.ofNat⟩

/-- Length-prefixed serialization of a string. -/
def serStr (s : String) : Bytes := s.length :: (s.data.map Char.toNat)

mutual
/-- Serialization of a JSON value to wire bytes (the model of the text
produced by `json.Marshal`): a tag byte followed by the payload, with
length prefixes for strings, byte fields, arrays and objects. -/
def serJ : JVal → Bytes
  | .jnull => [0]
  | .jbool b => [1, cond b 1 0]
  | .jnum n => [2, (if n < 0 then 1 else 0), n.natAbs]
  | .jstr s => 3 :: serStr s
  | .jbytes bs => 4 :: bs.length :: bs
  | .jarr xs => 5 :: xs.length :: serElems xs
  | .jobj fs => 6 :: fs.length :: serFields fs

/-- Serialization of the elements of a JSON array. -/
def serElems : List JVal → Bytes
  | [] => []
  | x :: xs => serJ x ++ serElems xs

/-- Serialization of the fields of a JSON object. -/
def serFields : List (String × JVal) → Bytes
  | [] => []
  | (k, v) :: fs => serStr k ++ serJ v ++ serFields fs
end

/-- Parse a length-prefixed string from the wire. -/
def deStr : Bytes → Option (String × Bytes)
  | [] => none
  | n :: rest =>
    if n ≤ rest.length then
      some (⟨(rest.take n).map Char.ofNat⟩, rest.drop n)
    else none

/-- Parse `n` consecutive values with the element parser `p`. -/
def parseMany (p : Bytes → Option (JVal × Bytes)) : Nat → Bytes → Option (List JVal × Bytes)
  | 0, input => some ([], input)
  | n + 1, input =>
    match p input with
    | none => none
    | some (x, r) =>
      match parseMany p n r with
      | none => none
      | some (xs, r2) => some (x :: xs, r2)

/-- Parse `n` consecutive key/value pairs with the value parser `p`. -/
def parseManyF (p : Bytes → Option (JVal × Bytes)) :
    Nat → Bytes → Option (List (String × JVal) × Bytes)
  | 0, input => some ([], input)
  | n + 1, input =>
    match deStr input with
    | none => none
    | some (k, r) =>
      match p r with
      | none => none
      | some (v, r2) =>
        match parseManyF p n r2 with
        | none => none
        | some (fs, r3) => some ((k, v) :: fs, r3)

/-- Fuel-indexed parser for serialized JSON values; `none` on any malformed
input (unknown tag, truncated payload, exhausted fuel). -/
def deJ : Nat → Bytes → Option (JVal × Bytes)
  | 0, _ => none
  | _ + 1, [] => none
  | fuel + 1, t :: rest =>
    match t with
    | 0 => some (.jnull, rest)
    | 1 =>
      match rest with
      | 0 :: r => some (.jbool false, r)
      | 1 :: r => some (.jbool true, r)
      | _ => none
    | 2 =>
      match rest with
      | 0 :: m :: r => some (.jnum (Int.ofNat m), r)
      | 1 :: m :: r => some (.jnum (-(Int.ofNat m)), r)
      | _ => none
    | 3 => (deStr rest).map (fun p => (.jstr p.1, p.2))
    | 4 =>
      match rest with
      | n :: r => if n ≤ r.length then some (.jbytes (r.take n), r.drop n) else none
      | [] => none
    | 5 =>
      match rest with
      | n :: r => (parseMany (deJ fuel) n r).map (fun p => (.jarr p.1, p.2))
      | [] => none
    | 6 =>
      match rest with
      | n :: r => (parseManyF (deJ fuel) n r).map (fun p => (.jobj p.1, p.2))
      | [] => none
    | _ => none

mutual
/-- Number of serialized values nested in a JSON value: an upper bound for
the parser fuel it needs. -/
def jsize : JVal → Nat
  | .jnull => 1
  | .jbool _ => 1
  | .jnum _ => 1
  | .jstr _ => 1
  | .jbytes _ => 1
  | .jarr xs => 1 + jsizeL xs
  | .jobj fs => 1 + jsizeF fs

/-- `jsize` summed over a list of values. -/
def jsizeL : List JVal → Nat
  | [] => 0
  | x :: xs => jsize x + jsizeL xs

/-- `jsize` summed over the values of an object field list. -/
def jsizeF : List (String × JVal) → Nat
  | [] => 0
  | (_, v) :: fs => jsize v + jsizeF fs
end

theorem charOfNat_toNat (c : Char) : Char.ofNat c.toNat = c := by
  rcases c with ⟨v, h⟩
  simp [Char.ofNat, Char.toNat]
  split
  · rfl
  · rename_i hbad
    exact absurd (by simpa using h) hbad

theorem mapOfNat_mapToNat (cs : List Char) : (cs.map Char.toNat).map Char.ofNat = cs := by
  rw [List.map_map]
  have h : Char.ofNat ∘ Char.toNat = id := funext charOfNat_toNat
  rw [h, List.map_id]

/-- `string(bs)` inverts `[]byte(s)`. -/
theorem bytesStr_strBytes (s : String) : bytesStr (strBytes s) = s := by
  rcases s with ⟨cs⟩
  show String.mk ((cs.map Char.toNat).map Char.ofNat) = ⟨cs⟩
  rw [mapOfNat_mapToNat]

theorem deStr_ser (s : String) (r : Bytes) : deStr (serStr s ++ r) = some (s, r) := by
  rcases s with ⟨cs⟩
  simp only [serStr, String.length, List.cons_append, deStr]
  rw [if_pos (by simp)]
  rw [List.take_left' (by simp), List.drop_left' (by simp)]
  rw [mapOfNat_mapToNat]

theorem jsize_pos (j : JVal) : 0 < jsize j := by
  cases j <;> simp [jsize]

theorem jsizeL_mem {x : JVal} {xs : List JVal} (h : x ∈ xs) : jsize x ≤ jsizeL xs := by
  induction xs with
  | nil => cases h
  | cons y ys ih =>
    rcases List.mem_cons.mp h with h1 | h2
    · subst h1; simp [jsizeL]
    · have := ih h2
      simp [jsizeL]
      omega

theorem jsizeF_mem {kv : String × JVal} {fs : List (String × JVal)} (h : kv ∈ fs) :
    jsize kv.2 ≤ jsizeF fs := by
  induction fs with
  | nil => cases h
  | cons y ys ih =>
    rcases List.mem_cons.mp h with h1 | h2
    · subst h1; simp [jsizeF]
    · have := ih h2
      rcases y with ⟨k, v⟩
      simp [jsizeF]
      omega

theorem parseMany_ser (p : Bytes → Option (JVal × Bytes)) (xs : List JVal) (r : Bytes)
    (h : ∀ x ∈ xs, ∀ r2, p (serJ x ++ r2) = some (x, r2)) :
    parseMany p xs.length (serElems xs ++ r) = some (xs, r) := by
  induction xs with
  | nil => simp [parseMany, serElems]
  | cons y ys ih =>
    have hy := h y (by simp) (serElems ys ++ r)
    have hih := ih (fun x hx r2 => h x (by simp [hx]) r2)
    simp only [serElems, List.length_cons, List.append_assoc, parseMany, hy, hih]

theorem parseManyF_ser (p : Bytes → Option (JVal × Bytes)) (fs : List (String × JVal)) (r : Bytes)
    (h : ∀ kv ∈ fs, ∀ r2, p (serJ kv.2 ++ r2) = some (kv.2, r2)) :
    parseManyF p fs.length (serFields fs ++ r) = some (fs, r) := by
  induction fs with
  | nil => simp [parseManyF, serFields]
  | cons y ys ih =>
    rcases y with ⟨k, v⟩
    have hy := h (k, v) (by simp) (serFields ys ++ r)
    have hds := deStr_ser k (serJ v ++ (serFields ys ++ r))
    have hih := ih (fun kv hkv r2 => h kv (by simp [hkv]) r2)
    simp only [serFields, List.length_cons, List.append_assoc, parseManyF, hds, hy, hih]

theorem deJ_ser : ∀ fuel j r, jsize j ≤ fuel → deJ fuel (serJ j ++ r) = some (j, r) := by
  intro fuel
  induction fuel with
  | zero => intro j r h; have := jsize_pos j; omega
  | succ fuel ih =>
    intro j r h
    cases j with
    | jnull => simp [serJ, deJ]
    | jbool b => cases b <;> simp [serJ, deJ]
    | jnum n =>
      rcases n with m | m
      · have hpos : ¬((m : Int) < 0) := not_lt.mpr (Int.natCast_nonneg m)
        simp [serJ, deJ, hpos]
      · simp [serJ, deJ, Int.negSucc_lt_zero, Int.natAbs_negSucc]
        rw [Int.negSucc_eq]
        ring
    | jstr s =>
      have hds := deStr_ser s r
      simp [serJ, deJ, hds]
    | jbytes bs =>
      simp only [serJ, deJ, List.cons_append, List.append_eq]
      rw [if_pos (by simp)]
      rw [List.take_left' rfl, List.drop_left' rfl]
    | jarr xs =>
      have hx : ∀ x ∈ xs, ∀ r2, deJ fuel (serJ x ++ r2) = some (x, r2) := by
        intro x hx r2
        apply ih
        have h1 := jsizeL_mem hx
        simp [jsize] at h
        omega
      have hp := parseMany_ser (deJ fuel) xs r hx
      simp only [serJ, deJ, List.cons_append, List.append_eq, hp, Option.map_some']
    | jobj fs =>
      have hx : ∀ kv ∈ fs, ∀ r2, deJ fuel (serJ kv.2 ++ r2) = some (kv.2, r2) := by
        intro kv hkv r2
        apply ih
        have h1 := jsizeF_mem hkv
        simp [jsize] at h
        omega
      have hp := parseManyF_ser (deJ fuel) fs r hx
      simp only [serJ, deJ, List.cons_append, List.append_eq, hp, Option.map_some']

mutual
theorem jsize_le_len : ∀ j, jsize j ≤ (serJ j).length
  | .jnull => by simp [jsize, serJ]
  | .jbool b => by simp [jsize, serJ]
  | .jnum n => by simp [jsize, serJ]
  | .jstr s => by simp [jsize, serJ, serStr]
  | .jbytes bs => by simp [jsize, serJ]
  | .jarr xs => by
      have := jsizeL_le_len xs
      simp [jsize, serJ]
      omega
  | .jobj fs => by
      have := jsizeF_le_len fs
      simp [jsize, serJ]
      omega

theorem jsizeL_le_len : ∀ xs, jsizeL xs ≤ (serElems xs).length
  | [] => by simp [jsizeL, serElems]
  | x :: xs => by
      have h1 := jsize_le_len x
      have h2 := jsizeL_le_len xs
      simp [jsizeL, serElems]
      omega

theorem jsizeF_le_len : ∀ fs, jsizeF fs ≤ (serFields fs).length
  | [] => by simp [jsizeF, serFields]
  | (k, v) :: fs => by
      have h1 := jsize_le_len v
      have h2 := jsizeF_le_len fs
      simp [jsizeF, serFields, serStr]
      omega
end

/-- The model of `json.Unmarshal`'s parsing stage: parse the whole payload
as one JSON value, rejecting malformed input and trailing garbage. -/
def jsonUnmarshal (bs : Bytes) : Except String JVal :=
  match deJ (bs.length + 1) bs with
  | some (j, []) => .ok j
  | some (_, _ :: _) => .error "invalid character after top-level value"
  | none => .error "unexpected end of JSON input"

/-- Parsing inverts serialization. -/
theorem jsonUnmarshal_ser (j : JVal) : jsonUnmarshal (serJ j) = .ok j := by
  have h1 : jsize j ≤ (serJ j).length + 1 := le_trans (jsize_le_len j) (by omega)
  have h2 := deJ_ser ((serJ j).length + 1) j [] h1
  simp at h2
  simp [jsonUnmarshal, h2]

/-! ## Domain value objects and the modelled `encoding/json` codec -/

/-- Modelled from the spec: the value of an out-of-scope domain record as
seen by `encoding/json`.  A value either has a JSON form (`representable`)
or is one that `json.Marshal` rejects (`unrepresentable`), per the
library's contract (functions, channels, unsupported floats). -/
inductive GoVal where
  | representable (j : JVal)
  | unrepresentable (tag : Nat)

/-- Modelled from the spec: domain value objects (`core.Registration`,
`core.Authorization`, `core.Certificate`, ...) are opaque serializable
records owned by the excluded domain layer; the RPC layer only marshals
snapshots of them.  Each is modelled as an opaque wrapped `GoVal`. -/
structure DomainVal where
  val : GoVal

/-- The Go zero value of a domain record. -/
def DomainVal.zero : DomainVal := ⟨.representable .jnull⟩

abbrev Registration := DomainVal
abbrev Authorization := DomainVal
abbrev Challenge := DomainVal
abbrev CoreCertificateRequest := DomainVal
abbrev Certificate := DomainVal
abbrev CertificateStatus := DomainVal
abbrev OCSPSigningRequest := DomainVal
abbrev JsonWebKey := DomainVal

/-- The JSON form of a domain record, when it has one. -/
def DomainVal.toJson : DomainVal → Option JVal
  | ⟨.representable j⟩ => some j
  | ⟨.unrepresentable _⟩ => none

/-- A well-formed domain value: one `json.Marshal` accepts. -/
def wfVal (v : DomainVal) : Prop := ∃ j, v = ⟨.representable j⟩

/-- Error value returned by the modelled `json.Marshal` on an
unrepresentable value. -/
def jsonMarshalErr : String := "json: unsupported value"

/-- `json.Marshal` of a single domain record. -/
def jsonMarshalVal (v : DomainVal) : Option Bytes := v.toJson.map serJ

/-- `json.Unmarshal` of a payload into a single opaque domain record: any
well-formed JSON value is accepted. -/
def jsonUnmarshalVal (bs : Bytes) : Except String DomainVal :=
  match jsonUnmarshal bs with
  | .error e => .error e
  | .ok j => .ok ⟨.representable j⟩

/-- Marshalling then unmarshalling a well-formed domain record restores it. -/
theorem rtVal (v : DomainVal) (h : wfVal v) :
    ∃ data, jsonMarshalVal v = some data ∧ jsonUnmarshalVal data = .ok v := by
  obtain ⟨j, rfl⟩ := h
  refine ⟨serJ j, rfl, ?_⟩
  unfold jsonUnmarshalVal
  rw [jsonUnmarshal_ser]

/-! ## Decoding helpers for envelope fields

Go's `json.Unmarshal` into a struct requires a JSON object, errors on a
type mismatch, leaves absent fields at their zero value and ignores
unknown fields. -/

/-- Error value of the modelled `json.Unmarshal` on a type mismatch. -/
def jsonTypeErr : String := "json: cannot unmarshal value into Go struct field"

/-- Top-level payload of a struct must be a JSON object. -/
def asObj : JVal → Except String (List (String × JVal))
  | .jobj fs => .ok fs
  | _ => .error jsonTypeErr

/-- Look a field up by name. -/
def jlookup (fs : List (String × JVal)) (k : String) : Option JVal :=
  match fs.find? (fun kv => kv.1 == k) with
  | some kv => some kv.2
  | none => none

/-- Decode an integer field (Go `int`/`int64`, and the modelled
`time.Time`): absent means zero. -/
def jInt : Option JVal → Except String Int
  | none => .ok 0
  | some (.jnum n) => .ok n
  | some _ => .error jsonTypeErr

/-- Decode a Go `[]byte` field: absent means nil. -/
def jBytesField : Option JVal → Except String Bytes
  | none => .ok []
  | some (.jbytes bs) => .ok bs
  | some _ => .error jsonTypeErr

/-- Decode a Go `string` field: absent means the empty string. -/
def jStrField : Option JVal → Except String String
  | none => .ok ""
  | some (.jstr s) => .ok s
  | some _ => .error jsonTypeErr

/-- Decode an opaque domain record field: any JSON value is accepted,
absent means the zero record. -/
def jValField : Option JVal → DomainVal
  | none => DomainVal.zero
  | some j => ⟨.representable j⟩

/-- Decode the elements of a `[]string` field. -/
def jStrElems : List JVal → Except String (List String)
  | [] => .ok []
  | .jstr s :: rest =>
    match jStrElems rest with
    | .error e => .error e
    | .ok ss => .ok (s :: ss)
  | _ => .error jsonTypeErr

/-- Decode a `[]string` field: absent means nil. -/
def jStrList : Option JVal → Except String (List String)
  | none => .ok []
  | some (.jarr xs) => jStrElems xs
  | some _ => .error jsonTypeErr

theorem jStrElems_map (ss : List String) : jStrElems (ss.map .jstr) = .ok ss := by
  induction ss with
  | nil => rfl
  | cons s rest ih => simp [jStrElems, ih]

/-! ## The modelled `crypto/x509` parser

`x509.Certificate` / `x509.CertificateRequest` carry their raw DER bytes in
`Raw`; the model's well-formed DER is a nonempty byte string beginning with
the DER SEQUENCE tag `0x30 = 48`, and parsing yields the value carrying
exactly the input bytes. -/

structure X509Certificate where
  Raw : Bytes

structure X509CertificateRequest where
  Raw : Bytes

/-- Well-formed DER in the model. -/
def derOk (bs : Bytes) : Prop := bs.head? = some 48

/-- Error value of the modelled x509 parsers. -/
def asn1Err : String := "asn1: structure error"

/-- Go `fmt` rendering of a nil error (the RA `RevokeCertificate` handler
can audit with a nil error when the parser returns no certificates). -/
def nilErrFmt : String := "%!s(<nil>)"

/-- `x509.ParseCertificates`: empty input yields no certificates and no
error; input not starting with the SEQUENCE tag fails. -/
def parseCertificates (bs : Bytes) : Except String (List X509Certificate) :=
  match bs.head? with
  | none => .ok []
  | some 48 => .ok [⟨bs⟩]
  | some _ => .error asn1Err

/-- `x509.ParseCertificateRequest`. -/
def parseCertificateRequest (bs : Bytes) : Except String X509CertificateRequest :=
  match bs.head? with
  | some 48 => .ok ⟨bs⟩
  | _ => .error asn1Err

/-! ## Envelope shapes (4.2) and their codecs

One structure per request shape of `rpc-wrappers.go`, with the encoding
each side applies.  `toJVal` is the struct side of `json.Marshal` (it
fails iff an opaque field is unrepresentable); `ofJVal` is the struct side
of `json.Unmarshal`. -/

/-- `registrationRequest` (RA `NewRegistration`). -/
structure registrationRequest where
  Reg : Registration

def registrationRequest.toJVal (r : registrationRequest) : Option JVal :=
  match r.Reg.toJson with
  | none => none
  | some jr => some (.jobj [("Reg", jr)])

def registrationRequest.ofJVal (j : JVal) : Except String registrationRequest :=
  match asObj j with
  | .error e => .error e
  | .ok fs => .ok ⟨jValField (jlookup fs "Reg")⟩

/-- `authorizationRequest` (RA `NewAuthorization`). -/
structure authorizationRequest where
  Authz : Authorization
  RegID : Int

def authorizationRequest.toJVal (r : authorizationRequest) : Option JVal :=
  match r.Authz.toJson with
  | none => none
  | some ja => some (.jobj [("Authz", ja), ("RegID", .jnum r.RegID)])

def authorizationRequest.ofJVal (j : JVal) : Except String authorizationRequest :=
  match asObj j with
  | .error e => .error e
  | .ok fs =>
    match jInt (jlookup fs "RegID") with
    | .error e => .error e
    | .ok regid => .ok ⟨jValField (jlookup fs "Authz"), regid⟩

/-- `certificateRequest` (RA `NewCertificate`). -/
structure certificateRequest where
  Req : CoreCertificateRequest
  RegID : Int

def certificateRequest.toJVal (r : certificateRequest) : Option JVal :=
  match r.Req.toJson with
  | none => none
  | some jr => some (.jobj [("Req", jr), ("RegID", .jnum r.RegID)])

def certificateRequest.ofJVal (j : JVal) : Except String certificateRequest :=
  match asObj j with
  | .error e => .error e
  | .ok fs =>
    match jInt (jlookup fs "RegID") with
    | .error e => .error e
    | .ok regid => .ok ⟨jValField (jlookup fs "Req"), regid⟩

/-- The anonymous `struct { Base, Update core.Registration }` of RA
`UpdateRegistration`. -/
structure updateRegistrationRequest where
  Base : Registration
  Update : Registration

def updateRegistrationRequest.toJVal (r : updateRegistrationRequest) : Option JVal :=
  match r.Base.toJson, r.Update.toJson with
  | some jb, some ju => some (.jobj [("Base", jb), ("Update", ju)])
  | _, _ => none

def updateRegistrationRequest.ofJVal (j : JVal) : Except String updateRegistrationRequest :=
  match asObj j with
  | .error e => .error e
  | .ok fs => .ok ⟨jValField (jlookup fs "Base"), jValField (jlookup fs "Update")⟩

/-- The anonymous `struct { Authz; Index; Response }` of RA
`UpdateAuthorization`. -/
structure updateAuthorizationRequest where
  Authz : Authorization
  Index : Int
  Response : Challenge

def updateAuthorizationRequest.toJVal (r : updateAuthorizationRequest) : Option JVal :=
  match r.Authz.toJson, r.Response.toJson with
  | some ja, some jc =>
      some (.jobj [("Authz", ja), ("Index", .jnum r.Index), ("Response", jc)])
  | _, _ => none

def updateAuthorizationRequest.ofJVal (j : JVal) : Except String updateAuthorizationRequest :=
  match asObj j with
  | .error e => .error e
  | .ok fs =>
    match jInt (jlookup fs "Index") with
    | .error e => .error e
    | .ok idx => .ok ⟨jValField (jlookup fs "Authz"), idx, jValField (jlookup fs "Response")⟩

/-- The anonymous `struct { Authz; Index }` of VA `UpdateValidations`. -/
structure updateValidationsRequest where
  Authz : Authorization
  Index : Int

def updateValidationsRequest.toJVal (r : updateValidationsRequest) : Option JVal :=
  match r.Authz.toJson with
  | none => none
  | some ja => some (.jobj [("Authz", ja), ("Index", .jnum r.Index)])

def updateValidationsRequest.ofJVal (j : JVal) : Except String updateValidationsRequest :=
  match asObj j with
  | .error e => .error e
  | .ok fs =>
    match jInt (jlookup fs "Index") with
    | .error e => .error e
    | .ok idx => .ok ⟨jValField (jlookup fs "Authz"), idx⟩

/-- The anonymous `struct { Bytes; RegID; EarliestExpiry }` of CA
`IssueCertificate` (`time.Time` modelled as an integer; its zero value is
`0`). -/
structure issueCertificateRequest where
  Bytes : Bytes
  RegID : Int
  EarliestExpiry : Int

def issueCertificateRequest.toJVal (r : issueCertificateRequest) : Option JVal :=
  some (.jobj [("Bytes", .jbytes r.Bytes), ("RegID", .jnum r.RegID),
               ("EarliestExpiry", .jnum r.EarliestExpiry)])

def issueCertificateRequest.ofJVal (j : JVal) : Except String issueCertificateRequest :=
  match asObj j with
  | .error e => .error e
  | .ok fs =>
    match jBytesField (jlookup fs "Bytes") with
    | .error e => .error e
    | .ok bs =>
      match jInt (jlookup fs "RegID") with
      | .error e => .error e
      | .ok regid =>
        match jInt (jlookup fs "EarliestExpiry") with
        | .error e => .error e
        | .ok exp => .ok ⟨bs, regid, exp⟩

/-- The anonymous `struct { Serial; ReasonCode }` of CA `RevokeCertificate`. -/
structure caRevokeRequest where
  Serial : String
  ReasonCode : Int

def caRevokeRequest.toJVal (r : caRevokeRequest) : Option JVal :=
  some (.jobj [("Serial", .jstr r.Serial), ("ReasonCode", .jnum r.ReasonCode)])

def caRevokeRequest.ofJVal (j : JVal) : Except String caRevokeRequest :=
  match asObj j with
  | .error e => .error e
  | .ok fs =>
    match jStrField (jlookup fs "Serial") with
    | .error e => .error e
    | .ok serial =>
      match jInt (jlookup fs "ReasonCode") with
      | .error e => .error e
      | .ok rc => .ok ⟨serial, rc⟩

/-- The anonymous `struct { ID int64 }` of SA `GetRegistration`. -/
structure getRegistrationRequest where
  ID : Int

def getRegistrationRequest.toJVal (r : getRegistrationRequest) : Option JVal :=
  some (.jobj [("ID", .jnum r.ID)])

def getRegistrationRequest.ofJVal (j : JVal) : Except String getRegistrationRequest :=
  match asObj j with
  | .error e => .error e
  | .ok fs =>
    match jInt (jlookup fs "ID") with
    | .error e => .error e
    | .ok i => .ok ⟨i⟩

/-- The anonymous `struct { Bytes; RegID }` of SA `AddCertificate`. -/
structure addCertificateRequest where
  Bytes : Bytes
  RegID : Int

def addCertificateRequest.toJVal (r : addCertificateRequest) : Option JVal :=
  some (.jobj [("Bytes", .jbytes r.Bytes), ("RegID", .jnum r.RegID)])

def addCertificateRequest.ofJVal (j : JVal) : Except String addCertificateRequest :=
  match asObj j with
  | .error e => .error e
  | .ok fs =>
    match jBytesField (jlookup fs "Bytes") with
    | .error e => .error e
    | .ok bs =>
      match jInt (jlookup fs "RegID") with
      | .error e => .error e
      | .ok regid => .ok ⟨bs, regid⟩

/-- The anonymous `struct { Serial; OCSPResponse; ReasonCode }` of SA
`MarkCertificateRevoked`. -/
structure markRevokedRequest where
  Serial : String
  OCSPResponse : Bytes
  ReasonCode : Int

def markRevokedRequest.toJVal (r : markRevokedRequest) : Option JVal :=
  some (.jobj [("Serial", .jstr r.Serial), ("OCSPResponse", .jbytes r.OCSPResponse),
               ("ReasonCode", .jnum r.ReasonCode)])

def markRevokedRequest.ofJVal (j : JVal) : Except String markRevokedRequest :=
  match asObj j with
  | .error e => .error e
  | .ok fs =>
    match jStrField (jlookup fs "Serial") with
    | .error e => .error e
    | .ok serial =>
      match jBytesField (jlookup fs "OCSPResponse") with
      | .error e => .error e
      | .ok ocsp =>
        match jInt (jlookup fs "ReasonCode") with
        | .error e => .error e
        | .ok rc => .ok ⟨serial, ocsp, rc⟩

/-- The anonymous `struct { Names []string }` of SA `AlreadyDeniedCSR`. -/
structure alreadyDeniedCSRRequest where
  Names : List String

def alreadyDeniedCSRRequest.toJVal (r : alreadyDeniedCSRRequest) : Option JVal :=
  some (.jobj [("Names", .jarr (r.Names.map .jstr))])

def alreadyDeniedCSRRequest.ofJVal (j : JVal) : Except String alreadyDeniedCSRRequest :=
  match asObj j with
  | .error e => .error e
  | .ok fs =>
    match jStrList (jlookup fs "Names") with
    | .error e => .error e
    | .ok names => .ok ⟨names⟩

/-! ## Generic marshal/unmarshal composition per shape -/

def marshalRegistrationRequest (r : registrationRequest) : Option Bytes := r.toJVal.map serJ
def unmarshalRegistrationRequest (bs : Bytes) : Except String registrationRequest :=
  match jsonUnmarshal bs with
  | .error e => .error e
  | .ok j => registrationRequest.ofJVal j

def marshalAuthorizationRequest (r : authorizationRequest) : Option Bytes := r.toJVal.map serJ
def unmarshalAuthorizationRequest (bs : Bytes) : Except String authorizationRequest :=
  match jsonUnmarshal bs with
  | .error e => .error e
  | .ok j => authorizationRequest.ofJVal j

def marshalCertificateRequest (r : certificateRequest) : Option Bytes := r.toJVal.map serJ
def unmarshalCertificateRequest (bs : Bytes) : Except String certificateRequest :=
  match jsonUnmarshal bs with
  | .error e => .error e
  | .ok j => certificateRequest.ofJVal j

def marshalUpdateRegistrationRequest (r : updateRegistrationRequest) : Option Bytes :=
  r.toJVal.map serJ
def unmarshalUpdateRegistrationRequest (bs : Bytes) : Except String updateRegistrationRequest :=
  match jsonUnmarshal bs with
  | .error e => .error e
  | .ok j => updateRegistrationRequest.ofJVal j

def marshalUpdateAuthorizationRequest (r : updateAuthorizationRequest) : Option Bytes :=
  r.toJVal.map serJ
def unmarshalUpdateAuthorizationRequest (bs : Bytes) : Except String updateAuthorizationRequest :=
  match jsonUnmarshal bs with
  | .error e => .error e
  | .ok j => updateAuthorizationRequest.ofJVal j

def marshalUpdateValidationsRequest (r : updateValidationsRequest) : Option Bytes :=
  r.toJVal.map serJ
def unmarshalUpdateValidationsRequest (bs : Bytes) : Except String updateValidationsRequest :=
  match jsonUnmarshal bs with
  | .error e => .error e
  | .ok j => updateValidationsRequest.ofJVal j

def marshalIssueCertificateRequest (r : issueCertificateRequest) : Option Bytes :=
  r.toJVal.map serJ
def unmarshalIssueCertificateRequest (bs : Bytes) : Except String issueCertificateRequest :=
  match jsonUnmarshal bs with
  | .error e => .error e
  | .ok j => issueCertificateRequest.ofJVal j

def marshalCaRevokeRequest (r : caRevokeRequest) : Option Bytes := r.toJVal.map serJ
def unmarshalCaRevokeRequest (bs : Bytes) : Except String caRevokeRequest :=
  match jsonUnmarshal bs with
  | .error e => .error e
  | .ok j => caRevokeRequest.ofJVal j

def marshalGetRegistrationRequest (r : getRegistrationRequest) : Option Bytes := r.toJVal.map serJ
def unmarshalGetRegistrationRequest (bs : Bytes) : Except String getRegistrationRequest :=
  match jsonUnmarshal bs with
  | .error e => .error e
  | .ok j => getRegistrationRequest.ofJVal j

def marshalAddCertificateRequest (r : addCertificateRequest) : Option Bytes := r.toJVal.map serJ
def unmarshalAddCertificateRequest (bs : Bytes) : Except String addCertificateRequest :=
  match jsonUnmarshal bs with
  | .error e => .error e
  | .ok j => addCertificateRequest.ofJVal j

def marshalMarkRevokedRequest (r : markRevokedRequest) : Option Bytes := r.toJVal.map serJ
def unmarshalMarkRevokedRequest (bs : Bytes) : Except String markRevokedRequest :=
  match jsonUnmarshal bs with
  | .error e => .error e
  | .ok j => markRevokedRequest.ofJVal j

def marshalAlreadyDeniedCSRRequest (r : alreadyDeniedCSRRequest) : Option Bytes :=
  r.toJVal.map serJ
def unmarshalAlreadyDeniedCSRRequest (bs : Bytes) : Except String alreadyDeniedCSRRequest :=
  match jsonUnmarshal bs with
  | .error e => .error e
  | .ok j => alreadyDeniedCSRRequest.ofJVal j

/-! ## Operation catalog (the `Method*` constants) -/

def MethodNewRegistration : String := "NewRegistration"
def MethodNewAuthorization : String := "NewAuthorization"
def MethodNewCertificate : String := "NewCertificate"
def MethodUpdateRegistration : String := "UpdateRegistration"
def MethodUpdateAuthorization : String := "UpdateAuthorization"
def MethodRevokeCertificate : String := "RevokeCertificate"
def MethodOnValidationUpdate : String := "OnValidationUpdate"
def MethodUpdateValidations : String := "UpdateValidations"
def MethodIssueCertificate : String := "IssueCertificate"
def MethodGenerateOCSP : String := "GenerateOCSP"
def MethodGetRegistration : String := "GetRegistration"
def MethodGetRegistrationByKey : String := "GetRegistrationByKey"
def MethodGetAuthorization : String := "GetAuthorization"
def MethodGetCertificate : String := "GetCertificate"
def MethodGetCertificateByShortSerial : String := "GetCertificateByShortSerial"
def MethodGetCertificateStatus : String := "GetCertificateStatus"
def MethodMarkCertificateRevoked : String := "MarkCertificateRevoked"
def MethodNewPendingAuthorization : String := "NewPendingAuthorization"
def MethodUpdatePendingAuthorization : String := "UpdatePendingAuthorization"
def MethodFinalizeAuthorization : String := "FinalizeAuthorization"
def MethodAddCertificate : String := "AddCertificate"
def MethodAlreadyDeniedCSR : String := "AlreadyDeniedCSR"

/-! ## Audit recorder -/

/-- The two failure classifications of the audit recorder. -/
inductive AuditKind where
  | improper
  | errorCond
deriving DecidableEq

/-- One audit record: its classification, the operation name passed by the
caller, and the recorded error. -/
structure AuditEntry where
  kind : AuditKind
  method : String
  errMsg : String
deriving DecidableEq

/-- `improperMessage(method, err, obj)`: records an Improper Message audit
entry. -/
def improperMessage (method : String) (errMsg : String) : AuditEntry :=
  ⟨.improper, method, errMsg⟩

/-- `errorCondition(method, err, obj)`: records an Error Condition audit
entry. -/
def errorCondition (method : String) (errMsg : String) : AuditEntry :=
  ⟨.errorCond, method, errMsg⟩

/-- `sql.ErrNoRows`, compared against by the SA
`GetCertificateByShortSerial` handler. -/
def sqlErrNoRows : String := "sql: no rows in result set"

/-! ## Domain interfaces (out-of-scope collaborators)

Each Go method returning `(T, error)` becomes a function into
`T × Option String`; `error`-only methods return `Option String`. -/

structure RegistrationAuthority where
  NewRegistration : Registration → Registration × Option String
  NewAuthorization : Authorization → Int → Authorization × Option String
  NewCertificate : CoreCertificateRequest → Int → Certificate × Option String
  UpdateRegistration : Registration → Registration → Registration × Option String
  UpdateAuthorization : Authorization → Int → Challenge → Authorization × Option String
  RevokeCertificate : X509Certificate → Option String
  OnValidationUpdate : Authorization → Option String

structure ValidationAuthority where
  UpdateValidations : Authorization → Int → Option String

structure CertificateAuthority where
  IssueCertificate : X509CertificateRequest → Int → Int → Certificate × Option String
  RevokeCertificate : String → Int → Option String
  GenerateOCSP : OCSPSigningRequest → Bytes × Option String

structure StorageAuthority where
  UpdateRegistration : Registration → Option String
  GetRegistration : Int → Registration × Option String
  GetRegistrationByKey : JsonWebKey → Registration × Option String
  GetAuthorization : String → Authorization × Option String
  AddCertificate : Bytes → Int → String × Option String
  NewRegistration : Registration → Registration × Option String
  NewPendingAuthorization : Authorization → Authorization × Option String
  UpdatePendingAuthorization : Authorization → Option String
  FinalizeAuthorization : Authorization → Option String
  GetCertificate : String → String × Option String
  GetCertificateByShortSerial : String → String × Option String
  GetCertificateStatus : String → CertificateStatus × Option String
  MarkCertificateRevoked : String → Bytes → Int → Option String
  AlreadyDeniedCSR : List String → Bool × Option String

/-! ## Service adapter handlers

One Lean function per closure registered with `rpc.Handle`.  The result
records the handler's named returns `(response, err)`, the audit entries
it produced, and the domain methods it invoked (empty iff the bound
implementation was never called). -/

/-- Result of one handler invocation. -/
structure HResult where
  response : Bytes
  err : Option String
  audit : List AuditEntry
  calls : List String
deriving DecidableEq

/-- RA `NewRegistration` handler. -/
def handleRANewRegistration (impl : RegistrationAuthority) (req : Bytes) : HResult :=
  match unmarshalRegistrationRequest req with
  | .error e => ⟨[], some e, [improperMessage MethodNewRegistration e], []⟩
  | .ok rr =>
    match impl.NewRegistration rr.Reg with
    | (_, some e) =>
        ⟨[], some e, [errorCondition MethodNewRegistration e], [MethodNewRegistration]⟩
    | (reg, none) =>
      match jsonMarshalVal reg with
      | none => ⟨[], some jsonMarshalErr, [errorCondition MethodNewRegistration jsonMarshalErr],
                 [MethodNewRegistration]⟩
      | some bs => ⟨bs, none, [], [MethodNewRegistration]⟩

/-- RA `NewAuthorization` handler. -/
def handleRANewAuthorization (impl : RegistrationAuthority) (req : Bytes) : HResult :=
  match unmarshalAuthorizationRequest req with
  | .error e => ⟨[], some e, [improperMessage MethodNewAuthorization e], []⟩
  | .ok ar =>
    match impl.NewAuthorization ar.Authz ar.RegID with
    | (_, some e) =>
        ⟨[], some e, [errorCondition MethodNewAuthorization e], [MethodNewAuthorization]⟩
    | (authz, none) =>
      match jsonMarshalVal authz with
      | none => ⟨[], some jsonMarshalErr, [errorCondition MethodNewAuthorization jsonMarshalErr],
                 [MethodNewAuthorization]⟩
      | some bs => ⟨bs, none, [], [MethodNewAuthorization]⟩

/-- RA `NewCertificate` handler (its `log.Info` progress markers are plain
log lines, not audit records, and are not modelled). -/
def handleRANewCertificate (impl : RegistrationAuthority) (req : Bytes) : HResult :=
  match unmarshalCertificateRequest req with
  | .error e => ⟨[], some e, [improperMessage MethodNewCertificate e], []⟩
  | .ok cr =>
    match impl.NewCertificate cr.Req cr.RegID with
    | (_, some e) =>
        ⟨[], some e, [errorCondition MethodNewCertificate e], [MethodNewCertificate]⟩
    | (cert, none) =>
      match jsonMarshalVal cert with
      | none => ⟨[], some jsonMarshalErr, [errorCondition MethodNewCertificate jsonMarshalErr],
                 [MethodNewCertificate]⟩
      | some bs => ⟨bs, none, [], [MethodNewCertificate]⟩

/-- RA `UpdateRegistration` handler. -/
def handleRAUpdateRegistration (impl : RegistrationAuthority) (req : Bytes) : HResult :=
  match unmarshalUpdateRegistrationRequest req with
  | .error e => ⟨[], some e, [improperMessage MethodUpdateRegistration e], []⟩
  | .ok request =>
    match impl.UpdateRegistration request.Base request.Update with
    | (_, some e) =>
        ⟨[], some e, [errorCondition MethodUpdateRegistration e], [MethodUpdateRegistration]⟩
    | (reg, none) =>
      match jsonMarshalVal reg with
      | none => ⟨[], some jsonMarshalErr,
                 [errorCondition MethodUpdateRegistration jsonMarshalErr],
                 [MethodUpdateRegistration]⟩
      | some bs => ⟨bs, none, [], [MethodUpdateRegistration]⟩

/-- RA `UpdateAuthorization` handler. -/
def handleRAUpdateAuthorization (impl : RegistrationAuthority) (req : Bytes) : HResult :=
  match unmarshalUpdateAuthorizationRequest req with
  | .error e => ⟨[], some e, [improperMessage MethodUpdateAuthorization e], []⟩
  | .ok authz =>
    match impl.UpdateAuthorization authz.Authz authz.Index authz.Response with
    | (_, some e) =>
        ⟨[], some e, [errorCondition MethodUpdateAuthorization e], [MethodUpdateAuthorization]⟩
    | (newAuthz, none) =>
      match jsonMarshalVal newAuthz with
      | none => ⟨[], some jsonMarshalErr,
                 [errorCondition MethodUpdateAuthorization jsonMarshalErr],
                 [MethodUpdateAuthorization]⟩
      | some bs => ⟨bs, none, [], [MethodUpdateAuthorization]⟩

/-- RA `RevokeCertificate` handler: the request payload is the raw DER
certificate.  When the parser yields no certificates and no error (empty
input), the Go code audits an Improper Message with a nil error and
returns success. -/
def handleRARevokeCertificate (impl : RegistrationAuthority) (req : Bytes) : HResult :=
  match parseCertificates req with
  | .error e => ⟨[], some e, [improperMessage MethodRevokeCertificate e], []⟩
  | .ok [] => ⟨[], none, [improperMessage MethodRevokeCertificate nilErrFmt], []⟩
  | .ok (c :: _) =>
    match impl.RevokeCertificate c with
    | some e =>
        ⟨[], some e, [errorCondition MethodRevokeCertificate e], [MethodRevokeCertificate]⟩
    | none => ⟨[], none, [], [MethodRevokeCertificate]⟩

/-- RA `OnValidationUpdate` handler. -/
def handleRAOnValidationUpdate (impl : RegistrationAuthority) (req : Bytes) : HResult :=
  match jsonUnmarshalVal req with
  | .error e => ⟨[], some e, [improperMessage MethodOnValidationUpdate e], []⟩
  | .ok authz =>
    match impl.OnValidationUpdate authz with
    | some e =>
        ⟨[], some e, [errorCondition MethodOnValidationUpdate e], [MethodOnValidationUpdate]⟩
    | none => ⟨[], none, [], [MethodOnValidationUpdate]⟩

/-- VA `UpdateValidations` handler. -/
def handleVAUpdateValidations (impl : ValidationAuthority) (req : Bytes) : HResult :=
  match unmarshalUpdateValidationsRequest req with
  | .error e => ⟨[], some e, [improperMessage MethodUpdateValidations e], []⟩
  | .ok vaReq =>
    match impl.UpdateValidations vaReq.Authz vaReq.Index with
    | some e =>
        ⟨[], some e, [errorCondition MethodUpdateValidations e], [MethodUpdateValidations]⟩
    | none => ⟨[], none, [], [MethodUpdateValidations]⟩

/-- CA `IssueCertificate` handler.  Both decode stages (JSON envelope and
DER CSR) audit Improper Message; the response-marshal failure is audited
as an Error Condition under `MethodGetRegistration`, exactly as the source
passes it. -/
def handleCAIssueCertificate (impl : CertificateAuthority) (req : Bytes) : HResult :=
  match unmarshalIssueCertificateRequest req with
  | .error e => ⟨[], some e, [improperMessage MethodIssueCertificate e], []⟩
  | .ok icReq =>
    match parseCertificateRequest icReq.Bytes with
    | .error e => ⟨[], some e, [improperMessage MethodIssueCertificate e], []⟩
    | .ok csr =>
      match impl.IssueCertificate csr icReq.RegID icReq.EarliestExpiry with
      | (_, some e) =>
          ⟨[], some e, [errorCondition MethodIssueCertificate e], [MethodIssueCertificate]⟩
      | (cert, none) =>
        match jsonMarshalVal cert with
        | none => ⟨[], some jsonMarshalErr,
                   [errorCondition MethodGetRegistration jsonMarshalErr],
                   [MethodIssueCertificate]⟩
        | some bs => ⟨bs, none, [], [MethodIssueCertificate]⟩

/-- CA `RevokeCertificate` handler: a decode failure is audited as an
Error Condition (not an Improper Message); the domain error is consumed by
a shadowing `err :=` inside the `if`, so the handler returns a nil error
even when the domain rejects the call. -/
def handleCARevokeCertificate (impl : CertificateAuthority) (req : Bytes) : HResult :=
  match unmarshalCaRevokeRequest req with
  | .error e => ⟨[], some e, [errorCondition MethodRevokeCertificate e], []⟩
  | .ok revokeReq =>
    match impl.RevokeCertificate revokeReq.Serial revokeReq.ReasonCode with
    | some e =>
        ⟨[], none, [errorCondition MethodRevokeCertificate e], [MethodRevokeCertificate]⟩
    | none => ⟨[], none, [], [MethodRevokeCertificate]⟩

/-- CA `GenerateOCSP` handler: a decode failure is audited as an Error
Condition (not an Improper Message); on a domain error the named returns
carry both the value the implementation produced and the error. -/
def handleCAGenerateOCSP (impl : CertificateAuthority) (req : Bytes) : HResult :=
  match jsonUnmarshalVal req with
  | .error e => ⟨[], some e, [errorCondition MethodGenerateOCSP e], []⟩
  | .ok xferObj =>
    match impl.GenerateOCSP xferObj with
    | (resp, some e) =>
        ⟨resp, some e, [errorCondition MethodGenerateOCSP e], [MethodGenerateOCSP]⟩
    | (resp, none) => ⟨resp, none, [], [MethodGenerateOCSP]⟩

/-- SA `UpdateRegistration` handler. -/
def handleSAUpdateRegistration (impl : StorageAuthority) (req : Bytes) : HResult :=
  match jsonUnmarshalVal req with
  | .error e => ⟨[], some e, [improperMessage MethodUpdateRegistration e], []⟩
  | .ok reg =>
    match impl.UpdateRegistration reg with
    | some e =>
        ⟨[], some e, [errorCondition MethodUpdateRegistration e], [MethodUpdateRegistration]⟩
    | none => ⟨[], none, [], [MethodUpdateRegistration]⟩

/-- SA `GetRegistration` handler. -/
def handleSAGetRegistration (impl : StorageAuthority) (req : Bytes) : HResult :=
  match unmarshalGetRegistrationRequest req with
  | .error e => ⟨[], some e, [improperMessage MethodGetRegistration e], []⟩
  | .ok intReq =>
    match impl.GetRegistration intReq.ID with
    | (_, some e) =>
        ⟨[], some e, [errorCondition MethodGetRegistration e], [MethodGetRegistration]⟩
    | (reg, none) =>
      match jsonMarshalVal reg with
      | none => ⟨[], some jsonMarshalErr, [errorCondition MethodGetRegistration jsonMarshalErr],
                 [MethodGetRegistration]⟩
      | some bs => ⟨bs, none, [], [MethodGetRegistration]⟩

/-- SA `GetRegistrationByKey` handler (the key is an opaque
`jose.JsonWebKey`). -/
def handleSAGetRegistrationByKey (impl : StorageAuthority) (req : Bytes) : HResult :=
  match jsonUnmarshalVal req with
  | .error e => ⟨[], some e, [improperMessage MethodGetRegistrationByKey e], []⟩
  | .ok jwk =>
    match impl.GetRegistrationByKey jwk with
    | (_, some e) =>
        ⟨[], some e, [errorCondition MethodGetRegistrationByKey e], [MethodGetRegistrationByKey]⟩
    | (reg, none) =>
      match jsonMarshalVal reg with
      | none => ⟨[], some jsonMarshalErr,
                 [errorCondition MethodGetRegistrationByKey jsonMarshalErr],
                 [MethodGetRegistrationByKey]⟩
      | some bs => ⟨bs, none, [], [MethodGetRegistrationByKey]⟩

/-- SA `GetAuthorization` handler: the request is the raw identifier, no
decode step. -/
def handleSAGetAuthorization (impl : StorageAuthority) (req : Bytes) : HResult :=
  match impl.GetAuthorization (bytesStr req) with
  | (_, some e) =>
      ⟨[], some e, [errorCondition MethodGetAuthorization e], [MethodGetAuthorization]⟩
  | (authz, none) =>
    match jsonMarshalVal authz with
    | none => ⟨[], some jsonMarshalErr, [errorCondition MethodGetAuthorization jsonMarshalErr],
               [MethodGetAuthorization]⟩
    | some bs => ⟨bs, none, [], [MethodGetAuthorization]⟩

/-- SA `AddCertificate` handler. -/
def handleSAAddCertificate (impl : StorageAuthority) (req : Bytes) : HResult :=
  match unmarshalAddCertificateRequest req with
  | .error e => ⟨[], some e, [improperMessage MethodAddCertificate e], []⟩
  | .ok icReq =>
    match impl.AddCertificate icReq.Bytes icReq.RegID with
    | (_, some e) =>
        ⟨[], some e, [errorCondition MethodAddCertificate e], [MethodAddCertificate]⟩
    | (id, none) => ⟨strBytes id, none, [], [MethodAddCertificate]⟩

/-- SA `NewRegistration` handler. -/
def handleSANewRegistration (impl : StorageAuthority) (req : Bytes) : HResult :=
  match jsonUnmarshalVal req with
  | .error e => ⟨[], some e, [improperMessage MethodNewRegistration e], []⟩
  | .ok registration =>
    match impl.NewRegistration registration with
    | (_, some e) =>
        ⟨[], some e, [errorCondition MethodNewRegistration e], [MethodNewRegistration]⟩
    | (output, none) =>
      match jsonMarshalVal output with
      | none => ⟨[], some jsonMarshalErr, [errorCondition MethodNewRegistration jsonMarshalErr],
                 [MethodNewRegistration]⟩
      | some bs => ⟨bs, none, [], [MethodNewRegistration]⟩

/-- SA `NewPendingAuthorization` handler. -/
def handleSANewPendingAuthorization (impl : StorageAuthority) (req : Bytes) : HResult :=
  match jsonUnmarshalVal req with
  | .error e => ⟨[], some e, [improperMessage MethodNewPendingAuthorization e], []⟩
  | .ok authz =>
    match impl.NewPendingAuthorization authz with
    | (_, some e) =>
        ⟨[], some e, [errorCondition MethodNewPendingAuthorization e],
         [MethodNewPendingAuthorization]⟩
    | (output, none) =>
      match jsonMarshalVal output with
      | none => ⟨[], some jsonMarshalErr,
                 [errorCondition MethodNewPendingAuthorization jsonMarshalErr],
                 [MethodNewPendingAuthorization]⟩
      | some bs => ⟨bs, none, [], [MethodNewPendingAuthorization]⟩

/-- SA `UpdatePendingAuthorization` handler. -/
def handleSAUpdatePendingAuthorization (impl : StorageAuthority) (req : Bytes) : HResult :=
  match jsonUnmarshalVal req with
  | .error e => ⟨[], some e, [improperMessage MethodUpdatePendingAuthorization e], []⟩
  | .ok authz =>
    match impl.UpdatePendingAuthorization authz with
    | some e =>
        ⟨[], some e, [errorCondition MethodUpdatePendingAuthorization e],
         [MethodUpdatePendingAuthorization]⟩
    | none => ⟨[], none, [], [MethodUpdatePendingAuthorization]⟩

/-- SA `FinalizeAuthorization` handler. -/
def handleSAFinalizeAuthorization (impl : StorageAuthority) (req : Bytes) : HResult :=
  match jsonUnmarshalVal req with
  | .error e => ⟨[], some e, [improperMessage MethodFinalizeAuthorization e], []⟩
  | .ok authz =>
    match impl.FinalizeAuthorization authz with
    | some e =>
        ⟨[], some e, [errorCondition MethodFinalizeAuthorization e],
         [MethodFinalizeAuthorization]⟩
    | none => ⟨[], none, [], [MethodFinalizeAuthorization]⟩

/-- SA `GetCertificate` handler: raw identifier in, raw certificate bytes
out. -/
def handleSAGetCertificate (impl : StorageAuthority) (req : Bytes) : HResult :=
  match impl.GetCertificate (bytesStr req) with
  | (_, some e) =>
      ⟨[], some e, [errorCondition MethodGetCertificate e], [MethodGetCertificate]⟩
  | (cert, none) => ⟨strBytes cert, none, [], [MethodGetCertificate]⟩

/-- SA `GetCertificateByShortSerial` handler: a `sql.ErrNoRows` outcome is
surfaced to the caller but deliberately not audited. -/
def handleSAGetCertificateByShortSerial (impl : StorageAuthority) (req : Bytes) : HResult :=
  match impl.GetCertificateByShortSerial (bytesStr req) with
  | (_, some e) =>
    if e = sqlErrNoRows then
      ⟨[], some e, [], [MethodGetCertificateByShortSerial]⟩
    else
      ⟨[], some e, [errorCondition MethodGetCertificateByShortSerial e],
       [MethodGetCertificateByShortSerial]⟩
  | (cert, none) => ⟨strBytes cert, none, [], [MethodGetCertificateByShortSerial]⟩

/-- SA `GetCertificateStatus` handler. -/
def handleSAGetCertificateStatus (impl : StorageAuthority) (req : Bytes) : HResult :=
  match impl.GetCertificateStatus (bytesStr req) with
  | (_, some e) =>
      ⟨[], some e, [errorCondition MethodGetCertificateStatus e], [MethodGetCertificateStatus]⟩
  | (status, none) =>
    match jsonMarshalVal status with
    | none => ⟨[], some jsonMarshalErr,
               [errorCondition MethodGetCertificateStatus jsonMarshalErr],
               [MethodGetCertificateStatus]⟩
    | some bs => ⟨bs, none, [], [MethodGetCertificateStatus]⟩

/-- SA `MarkCertificateRevoked` handler. -/
def handleSAMarkCertificateRevoked (impl : StorageAuthority) (req : Bytes) : HResult :=
  match unmarshalMarkRevokedRequest req with
  | .error e => ⟨[], some e, [improperMessage MethodMarkCertificateRevoked e], []⟩
  | .ok revokeReq =>
    match impl.MarkCertificateRevoked revokeReq.Serial revokeReq.OCSPResponse
        revokeReq.ReasonCode with
    | some e =>
        ⟨[], some e, [errorCondition MethodMarkCertificateRevoked e],
         [MethodMarkCertificateRevoked]⟩
    | none => ⟨[], none, [], [MethodMarkCertificateRevoked]⟩

/-- SA `AlreadyDeniedCSR` handler: the boolean result is encoded as a
single byte, `1` for true and `0` for false. -/
def handleSAAlreadyDeniedCSR (impl : StorageAuthority) (req : Bytes) : HResult :=
  match unmarshalAlreadyDeniedCSRRequest req with
  | .error e => ⟨[], some e, [improperMessage MethodAlreadyDeniedCSR e], []⟩
  | .ok csrReq =>
    match impl.AlreadyDeniedCSR csrReq.Names with
    | (_, some e) =>
        ⟨[], some e, [errorCondition MethodAlreadyDeniedCSR e], [MethodAlreadyDeniedCSR]⟩
    | (exists_, none) =>
      if exists_ then ⟨[1], none, [], [MethodAlreadyDeniedCSR]⟩
      else ⟨[0], none, [], [MethodAlreadyDeniedCSR]⟩

/-! ## Server-binding constructors

`rpc.Handle` registrations are modelled by returning the ordered list of
`(operation name, handler)` pairs alongside the constructor's returned
error. -/

/-- `NewRegistrationAuthorityServer(rpc, impl)`. -/
def NewRegistrationAuthorityServer (impl : RegistrationAuthority) :
    List (String × (Bytes → HResult)) × Option String :=
  ([(MethodNewRegistration, handleRANewRegistration impl),
    (MethodNewAuthorization, handleRANewAuthorization impl),
    (MethodNewCertificate, handleRANewCertificate impl),
    (MethodUpdateRegistration, handleRAUpdateRegistration impl),
    (MethodUpdateAuthorization, handleRAUpdateAuthorization impl),
    (MethodRevokeCertificate, handleRARevokeCertificate impl),
    (MethodOnValidationUpdate, handleRAOnValidationUpdate impl)], none)

/-- `NewValidationAuthorityServer(rpc, impl)`. -/
def NewValidationAuthorityServer (impl : ValidationAuthority) :
    List (String × (Bytes → HResult)) × Option String :=
  ([(MethodUpdateValidations, handleVAUpdateValidations impl)], none)

/-- `NewCertificateAuthorityServer(rpc, impl)`. -/
def NewCertificateAuthorityServer (impl : CertificateAuthority) :
    List (String × (Bytes → HResult)) × Option String :=
  ([(MethodIssueCertificate, handleCAIssueCertificate impl),
    (MethodRevokeCertificate, handleCARevokeCertificate impl),
    (MethodGenerateOCSP, handleCAGenerateOCSP impl)], none)

/-- `NewStorageAuthorityServer(rpc, impl)`. -/
def NewStorageAuthorityServer (impl : StorageAuthority) :
    List (String × (Bytes → HResult)) × Option String :=
  ([(MethodUpdateRegistration, handleSAUpdateRegistration impl),
    (MethodGetRegistration, handleSAGetRegistration impl),
    (MethodGetRegistrationByKey, handleSAGetRegistrationByKey impl),
    (MethodGetAuthorization, handleSAGetAuthorization impl),
    (MethodAddCertificate, handleSAAddCertificate impl),
    (MethodNewRegistration, handleSANewRegistration impl),
    (MethodNewPendingAuthorization, handleSANewPendingAuthorization impl),
    (MethodUpdatePendingAuthorization, handleSAUpdatePendingAuthorization impl),
    (MethodFinalizeAuthorization, handleSAFinalizeAuthorization impl),
    (MethodGetCertificate, handleSAGetCertificate impl),
    (MethodGetCertificateByShortSerial, handleSAGetCertificateByShortSerial impl),
    (MethodGetCertificateStatus, handleSAGetCertificateStatus impl),
    (MethodMarkCertificateRevoked, handleSAMarkCertificateRevoked impl),
    (MethodAlreadyDeniedCSR, handleSAAlreadyDeniedCSR impl)], none)

/-! ## Remote stubs

The transport stub collaborator: `DispatchSync(operationName, payload)`
returning `(responseBytes, error)`. -/

abbrev RPCClient := String → Bytes → Bytes × Option String

/-- Result of one stub call: the Go return values plus the audit entries
the stub recorded. -/
structure CResult (α : Type) where
  value : α
  err : Option String
  audit : List AuditEntry

namespace RegistrationAuthorityClient

/-- `RegistrationAuthorityClient.NewRegistration`. -/
def NewRegistration (rpc : RPCClient) (reg : Registration) : CResult Registration :=
  match marshalRegistrationRequest ⟨reg⟩ with
  | none => ⟨DomainVal.zero, some jsonMarshalErr, []⟩
  | some data =>
    match rpc MethodNewRegistration data with
    | (_, some e) => ⟨DomainVal.zero, some e, []⟩
    | (newRegData, none) =>
      if newRegData.length == 0 then ⟨DomainVal.zero, none, []⟩
      else
        match jsonUnmarshalVal newRegData with
        | .error e => ⟨DomainVal.zero, some e, []⟩
        | .ok newReg => ⟨newReg, none, []⟩

/-- `RegistrationAuthorityClient.NewAuthorization`. -/
def NewAuthorization (rpc : RPCClient) (authz : Authorization) (regID : Int) :
    CResult Authorization :=
  match marshalAuthorizationRequest ⟨authz, regID⟩ with
  | none => ⟨DomainVal.zero, some jsonMarshalErr, []⟩
  | some data =>
    match rpc MethodNewAuthorization data with
    | (_, some e) => ⟨DomainVal.zero, some e, []⟩
    | (newAuthzData, none) =>
      if newAuthzData.length == 0 then ⟨DomainVal.zero, none, []⟩
      else
        match jsonUnmarshalVal newAuthzData with
        | .error e => ⟨DomainVal.zero, some e, []⟩
        | .ok newAuthz => ⟨newAuthz, none, []⟩

/-- `RegistrationAuthorityClient.NewCertificate`: an empty error-free
response is converted to the operation-specific failure error. -/
def NewCertificate (rpc : RPCClient) (cr : CoreCertificateRequest) (regID : Int) :
    CResult Certificate :=
  match marshalCertificateRequest ⟨cr, regID⟩ with
  | none => ⟨DomainVal.zero, some jsonMarshalErr, []⟩
  | some data =>
    match rpc MethodNewCertificate data with
    | (_, some e) => ⟨DomainVal.zero, some e, []⟩
    | (certData, none) =>
      if certData.length == 0 then
        ⟨DomainVal.zero, some "NewCertificate RPC to RA failed.", []⟩
      else
        match jsonUnmarshalVal certData with
        | .error e => ⟨DomainVal.zero, some e, []⟩
        | .ok cert => ⟨cert, none, []⟩

/-- `RegistrationAuthorityClient.UpdateRegistration`. -/
def UpdateRegistration (rpc : RPCClient) (base update : Registration) :
    CResult Registration :=
  match marshalUpdateRegistrationRequest ⟨base, update⟩ with
  | none => ⟨DomainVal.zero, some jsonMarshalErr, []⟩
  | some data =>
    match rpc MethodUpdateRegistration data with
    | (_, some e) => ⟨DomainVal.zero, some e, []⟩
    | (newRegData, none) =>
      if newRegData.length == 0 then ⟨DomainVal.zero, none, []⟩
      else
        match jsonUnmarshalVal newRegData with
        | .error e => ⟨DomainVal.zero, some e, []⟩
        | .ok newReg => ⟨newReg, none, []⟩

/-- `RegistrationAuthorityClient.UpdateAuthorization`. -/
def UpdateAuthorization (rpc : RPCClient) (authz : Authorization) (index : Int)
    (response : Challenge) : CResult Authorization :=
  match marshalUpdateAuthorizationRequest ⟨authz, index, response⟩ with
  | none => ⟨DomainVal.zero, some jsonMarshalErr, []⟩
  | some data =>
    match rpc MethodUpdateAuthorization data with
    | (_, some e) => ⟨DomainVal.zero, some e, []⟩
    | (newAuthzData, none) =>
      if newAuthzData.length == 0 then ⟨DomainVal.zero, none, []⟩
      else
        match jsonUnmarshalVal newAuthzData with
        | .error e => ⟨DomainVal.zero, some e, []⟩
        | .ok newAuthz => ⟨newAuthz, none, []⟩

/-- `RegistrationAuthorityClient.RevokeCertificate`: the payload is the raw
DER certificate. -/
def RevokeCertificate (rpc : RPCClient) (cert : X509Certificate) : CResult Unit :=
  ⟨(), (rpc MethodRevokeCertificate cert.Raw).2, []⟩

/-- `RegistrationAuthorityClient.OnValidationUpdate`. -/
def OnValidationUpdate (rpc : RPCClient) (authz : Authorization) : CResult Unit :=
  match jsonMarshalVal authz with
  | none => ⟨(), some jsonMarshalErr, []⟩
  | some data => ⟨(), (rpc MethodOnValidationUpdate data).2, []⟩

end RegistrationAuthorityClient

namespace ValidationAuthorityClient

/-- `ValidationAuthorityClient.UpdateValidations`: after the dispatch the
stub returns a literal nil, discarding any dispatch error. -/
def UpdateValidations (rpc : RPCClient) (authz : Authorization) (index : Int) : CResult Unit :=
  match marshalUpdateValidationsRequest ⟨authz, index⟩ with
  | none => ⟨(), some jsonMarshalErr, []⟩
  | some data =>
    let _ := rpc MethodUpdateValidations data
    ⟨(), none, []⟩

end ValidationAuthorityClient

namespace CertificateAuthorityClient

/-- The request value `CertificateAuthorityClient.IssueCertificate` builds:
the struct is zero-initialized and only `Bytes` and `RegID` are assigned,
so `EarliestExpiry` keeps its zero value whatever the caller supplied. -/
def issueCertificateReq (csr : X509CertificateRequest) (regID : Int)
    (_earliestExpiry : Int) : issueCertificateRequest :=
  ⟨csr.Raw, regID, 0⟩

/-- `CertificateAuthorityClient.IssueCertificate`. -/
def IssueCertificate (rpc : RPCClient) (csr : X509CertificateRequest) (regID : Int)
    (earliestExpiry : Int) : CResult Certificate :=
  match marshalIssueCertificateRequest (issueCertificateReq csr regID earliestExpiry) with
  | none => ⟨DomainVal.zero, some jsonMarshalErr, []⟩
  | some data =>
    match rpc MethodIssueCertificate data with
    | (_, some e) => ⟨DomainVal.zero, some e, []⟩
    | (jsonResponse, none) =>
      if jsonResponse.length == 0 then
        ⟨DomainVal.zero, some "IssueCertificate RPC to CA failed.", []⟩
      else
        match jsonUnmarshalVal jsonResponse with
        | .error e => ⟨DomainVal.zero, some e, []⟩
        | .ok cert => ⟨cert, none, []⟩

/-- `CertificateAuthorityClient.RevokeCertificate`: a marshal failure is
audited as an Error Condition under its own method name. -/
def RevokeCertificate (rpc : RPCClient) (serial : String) (reasonCode : Int) : CResult Unit :=
  match marshalCaRevokeRequest ⟨serial, reasonCode⟩ with
  | none => ⟨(), some jsonMarshalErr, [errorCondition MethodRevokeCertificate jsonMarshalErr]⟩
  | some data => ⟨(), (rpc MethodRevokeCertificate data).2, []⟩

/-- `CertificateAuthorityClient.GenerateOCSP`: a marshal failure is audited
as an Error Condition under `MethodGetRegistration`, exactly as the source
passes it; the raw OCSP response bytes are returned unchanged. -/
def GenerateOCSP (rpc : RPCClient) (signRequest : OCSPSigningRequest) : CResult Bytes :=
  match jsonMarshalVal signRequest with
  | none => ⟨[], some jsonMarshalErr, [errorCondition MethodGetRegistration jsonMarshalErr]⟩
  | some data =>
    let p := rpc MethodGenerateOCSP data
    ⟨p.1, p.2, []⟩

end CertificateAuthorityClient

namespace StorageAuthorityClient

/-- `StorageAuthorityClient.GetRegistration`. -/
def GetRegistration (rpc : RPCClient) (id : Int) : CResult Registration :=
  match marshalGetRegistrationRequest ⟨id⟩ with
  | none => ⟨DomainVal.zero, some jsonMarshalErr, []⟩
  | some data =>
    match rpc MethodGetRegistration data with
    | (_, some e) => ⟨DomainVal.zero, some e, []⟩
    | (jsonReg, none) =>
      match jsonUnmarshalVal jsonReg with
      | .error e => ⟨DomainVal.zero, some e, []⟩
      | .ok reg => ⟨reg, none, []⟩

/-- `StorageAuthorityClient.GetRegistrationByKey` (the payload is
`key.MarshalJSON()`). -/
def GetRegistrationByKey (rpc : RPCClient) (key : JsonWebKey) : CResult Registration :=
  match jsonMarshalVal key with
  | none => ⟨DomainVal.zero, some jsonMarshalErr, []⟩
  | some jsonKey =>
    match rpc MethodGetRegistrationByKey jsonKey with
    | (_, some e) => ⟨DomainVal.zero, some e, []⟩
    | (jsonReg, none) =>
      match jsonUnmarshalVal jsonReg with
      | .error e => ⟨DomainVal.zero, some e, []⟩
      | .ok reg => ⟨reg, none, []⟩

/-- `StorageAuthorityClient.GetAuthorization`: raw identifier payload. -/
def GetAuthorization (rpc : RPCClient) (id : String) : CResult Authorization :=
  match rpc MethodGetAuthorization (strBytes id) with
  | (_, some e) => ⟨DomainVal.zero, some e, []⟩
  | (jsonAuthz, none) =>
    match jsonUnmarshalVal jsonAuthz with
    | .error e => ⟨DomainVal.zero, some e, []⟩
    | .ok authz => ⟨authz, none, []⟩

/-- `StorageAuthorityClient.GetCertificate`: raw identifier in, raw
certificate bytes out, dispatch results returned directly. -/
def GetCertificate (rpc : RPCClient) (id : String) : CResult Bytes :=
  let p := rpc MethodGetCertificate (strBytes id)
  ⟨p.1, p.2, []⟩

/-- `StorageAuthorityClient.GetCertificateByShortSerial`. -/
def GetCertificateByShortSerial (rpc : RPCClient) (id : String) : CResult Bytes :=
  let p := rpc MethodGetCertificateByShortSerial (strBytes id)
  ⟨p.1, p.2, []⟩

/-- `StorageAuthorityClient.GetCertificateStatus`. -/
def GetCertificateStatus (rpc : RPCClient) (id : String) : CResult CertificateStatus :=
  match rpc MethodGetCertificateStatus (strBytes id) with
  | (_, some e) => ⟨DomainVal.zero, some e, []⟩
  | (jsonStatus, none) =>
    match jsonUnmarshalVal jsonStatus with
    | .error e => ⟨DomainVal.zero, some e, []⟩
    | .ok status => ⟨status, none, []⟩

/-- `StorageAuthorityClient.MarkCertificateRevoked`. -/
def MarkCertificateRevoked (rpc : RPCClient) (serial : String) (ocspResponse : Bytes)
    (reasonCode : Int) : CResult Unit :=
  match marshalMarkRevokedRequest ⟨serial, ocspResponse, reasonCode⟩ with
  | none => ⟨(), some jsonMarshalErr, []⟩
  | some data => ⟨(), (rpc MethodMarkCertificateRevoked data).2, []⟩

/-- `StorageAuthorityClient.UpdateRegistration`. -/
def UpdateRegistration (rpc : RPCClient) (reg : Registration) : CResult Unit :=
  match jsonMarshalVal reg with
  | none => ⟨(), some jsonMarshalErr, []⟩
  | some jsonReg => ⟨(), (rpc MethodUpdateRegistration jsonReg).2, []⟩

/-- `StorageAuthorityClient.NewRegistration`: every failure (marshal,
dispatch, empty response, unmarshal) is replaced by the same generic
error. -/
def NewRegistration (rpc : RPCClient) (reg : Registration) : CResult Registration :=
  match jsonMarshalVal reg with
  | none => ⟨DomainVal.zero, some "NewRegistration RPC failed", []⟩
  | some jsonReg =>
    match rpc MethodNewRegistration jsonReg with
    | (response, derr) =>
      if derr.isSome || response.length == 0 then
        ⟨DomainVal.zero, some "NewRegistration RPC failed", []⟩
      else
        match jsonUnmarshalVal response with
        | .error _ => ⟨DomainVal.zero, some "NewRegistration RPC failed", []⟩
        | .ok output => ⟨output, none, []⟩

/-- `StorageAuthorityClient.NewPendingAuthorization`: a dispatch error or
empty response is replaced by a generic operation error; an unmarshal
failure is replaced by the (copy-pasted) `NewRegistration` error. -/
def NewPendingAuthorization (rpc : RPCClient) (authz : Authorization) :
    CResult Authorization :=
  match jsonMarshalVal authz with
  | none => ⟨DomainVal.zero, some jsonMarshalErr, []⟩
  | some jsonAuthz =>
    match rpc MethodNewPendingAuthorization jsonAuthz with
    | (response, derr) =>
      if derr.isSome || response.length == 0 then
        ⟨DomainVal.zero, some "NewPendingAuthorization RPC failed", []⟩
      else
        match jsonUnmarshalVal response with
        | .error _ => ⟨DomainVal.zero, some "NewRegistration RPC failed", []⟩
        | .ok output => ⟨output, none, []⟩

/-- `StorageAuthorityClient.UpdatePendingAuthorization`. -/
def UpdatePendingAuthorization (rpc : RPCClient) (authz : Authorization) : CResult Unit :=
  match jsonMarshalVal authz with
  | none => ⟨(), some jsonMarshalErr, []⟩
  | some jsonAuthz => ⟨(), (rpc MethodUpdatePendingAuthorization jsonAuthz).2, []⟩

/-- `StorageAuthorityClient.FinalizeAuthorization`. -/
def FinalizeAuthorization (rpc : RPCClient) (authz : Authorization) : CResult Unit :=
  match jsonMarshalVal authz with
  | none => ⟨(), some jsonMarshalErr, []⟩
  | some jsonAuthz => ⟨(), (rpc MethodFinalizeAuthorization jsonAuthz).2, []⟩

/-- `StorageAuthorityClient.AddCertificate`: a dispatch error or empty
response is replaced by a generic operation error; the serial is the raw
response bytes. -/
def AddCertificate (rpc : RPCClient) (cert : Bytes) (regID : Int) : CResult String :=
  match marshalAddCertificateRequest ⟨cert, regID⟩ with
  | none => ⟨"", some jsonMarshalErr, []⟩
  | some data =>
    match rpc MethodAddCertificate data with
    | (response, derr) =>
      if derr.isSome || response.length == 0 then
        ⟨"", some "AddCertificate RPC failed", []⟩
      else ⟨bytesStr response, none, []⟩

/-- `StorageAuthorityClient.AlreadyDeniedCSR`: a dispatch error or empty
response is replaced by a generic operation error; the response byte is
decoded by a switch whose only cases are `0` and `1`, so any other byte
leaves the zero value `false`. -/
def AlreadyDeniedCSR (rpc : RPCClient) (names : List String) : CResult Bool :=
  match marshalAlreadyDeniedCSRRequest ⟨names⟩ with
  | none => ⟨false, some jsonMarshalErr, []⟩
  | some data =>
    match rpc MethodAlreadyDeniedCSR data with
    | (response, derr) =>
      if derr.isSome || response.length == 0 then
        ⟨false, some "AlreadyDeniedCSR RPC failed", []⟩
      else
        match response with
        | 0 :: _ => ⟨false, none, []⟩
        | 1 :: _ => ⟨true, none, []⟩
        | _ => ⟨false, none, []⟩

end StorageAuthorityClient

/-! ## Concrete fixtures for witnesses and counterexamples -/

/-- A trivial RA implementation. -/
def implRA0 : RegistrationAuthority :=
  ⟨fun r => (r, none), fun a _ => (a, none), fun _ _ => (DomainVal.zero, none),
   fun b _ => (b, none), fun a _ _ => (a, none), fun _ => none, fun _ => none⟩

/-- A trivial VA implementation. -/
def implVA0 : ValidationAuthority := ⟨fun _ _ => none⟩

/-- A trivial CA implementation. -/
def implCA0 : CertificateAuthority :=
  ⟨fun _ _ _ => (DomainVal.zero, none), fun _ _ => none, fun _ => ([], none)⟩

/-- A CA implementation whose issued certificate has no JSON form, making
the response-marshal step of the `IssueCertificate` handler fail. -/
def implCABadCert : CertificateAuthority :=
  ⟨fun _ _ _ => (⟨.unrepresentable 0⟩, none), fun _ _ => none, fun _ => ([], none)⟩

/-- A trivial SA implementation. -/
def implSA0 : StorageAuthority :=
  ⟨fun _ => none, fun _ => (DomainVal.zero, none), fun _ => (DomainVal.zero, none),
   fun _ => (DomainVal.zero, none), fun _ _ => ("", none), fun r => (r, none),
   fun a => (a, none), fun _ => none, fun _ => none, fun _ => ("", none),
   fun _ => ("", none), fun _ => (DomainVal.zero, none), fun _ _ _ => none,
   fun _ => (false, none)⟩

/-- An SA implementation whose `GetCertificateByShortSerial` reports
`sql.ErrNoRows`. -/
def implSANoRows : StorageAuthority :=
  ⟨fun _ => none, fun _ => (DomainVal.zero, none), fun _ => (DomainVal.zero, none),
   fun _ => (DomainVal.zero, none), fun _ _ => ("", none), fun r => (r, none),
   fun a => (a, none), fun _ => none, fun _ => none, fun _ => ("", none),
   fun _ => ("", some sqlErrNoRows), fun _ => (DomainVal.zero, none), fun _ _ _ => none,
   fun _ => (false, none)⟩

/-- An SA implementation whose `GetCertificateByShortSerial` reports a
genuine fault. -/
def implSADiskErr : StorageAuthority :=
  ⟨fun _ => none, fun _ => (DomainVal.zero, none), fun _ => (DomainVal.zero, none),
   fun _ => (DomainVal.zero, none), fun _ _ => ("", none), fun r => (r, none),
   fun a => (a, none), fun _ => none, fun _ => none, fun _ => ("", none),
   fun _ => ("", some "disk failure"), fun _ => (DomainVal.zero, none), fun _ _ _ => none,
   fun _ => (false, none)⟩

/-- A transport that returns an empty success. -/
def rpcNone : RPCClient := fun _ _ => ([], none)

/-- A transport that always fails. -/
def rpcBoom : RPCClient := fun _ _ => ([], some "boom")

/-- A transport answering with the single byte `2`. -/
def rpcByte2 : RPCClient := fun _ _ => ([2], none)

/-- A transport answering with the single byte `0`. -/
def rpcByte0 : RPCClient := fun _ _ => ([0], none)

/-- A payload no JSON decoder accepts (unknown tag). -/
def badReq : Bytes := [9]

/-! ## Claim theorems -/

/-- C10: every server-binding constructor returns a nil error for every
domain implementation — binding itself can never fail. -/
theorem C10_binding_never_fails :
    (∀ impl, (NewRegistrationAuthorityServer impl).2 = none) ∧
    (∀ impl, (NewValidationAuthorityServer impl).2 = none) ∧
    (∀ impl, (NewCertificateAuthorityServer impl).2 = none) ∧
    (∀ impl, (NewStorageAuthorityServer impl).2 = none) :=
  ⟨fun _ => rfl, fun _ => rfl, fun _ => rfl, fun _ => rfl⟩

/-- C8: whenever the request marshals, `ValidationAuthorityClient.UpdateValidations`
returns a nil error and records nothing, whatever the transport does with
the dispatched call — the dispatch error is discarded. -/
theorem C8_updateValidations_discards_dispatch_error :
    ∀ (rpc : RPCClient) (authz : Authorization) (index : Int) (data : Bytes),
      marshalUpdateValidationsRequest ⟨authz, index⟩ = some data →
      ValidationAuthorityClient.UpdateValidations rpc authz index = ⟨(), none, []⟩ := by
  intro rpc authz index data h
  simp [ValidationAuthorityClient.UpdateValidations, h]

/-- C8 witness: at a concrete authorization and an always-failing
transport, the stub still reports success. -/
theorem C8_witness :
    ValidationAuthorityClient.UpdateValidations rpcBoom DomainVal.zero 0 = ⟨(), none, []⟩ :=
  C8_updateValidations_discards_dispatch_error rpcBoom DomainVal.zero 0 _ rfl

/-- C7: when the SA adapter's `GetCertificateByShortSerial` handler sees a
domain error, the error is returned to the transport; a `sql.ErrNoRows`
outcome produces no audit entry, while any other domain error is audited
as an Error Condition. -/
theorem C7_shortSerial_notfound_carveout :
    ∀ (impl : StorageAuthority) (req : Bytes) (cert : String) (e : String),
      impl.GetCertificateByShortSerial (bytesStr req) = (cert, some e) →
      (handleSAGetCertificateByShortSerial impl req).err = some e ∧
      (e = sqlErrNoRows → (handleSAGetCertificateByShortSerial impl req).audit = []) ∧
      (e ≠ sqlErrNoRows → (handleSAGetCertificateByShortSerial impl req).audit =
        [errorCondition MethodGetCertificateByShortSerial e]) := by
  intro impl req cert e h
  unfold handleSAGetCertificateByShortSerial
  rw [h]
  by_cases he : e = sqlErrNoRows
  · simp [he]
  · simp [he]

/-- C7 witness: a nonexistent serial yields the `sql.ErrNoRows` error with
zero audit records, and a distinct error is audited. -/
theorem C7_witness :
    (handleSAGetCertificateByShortSerial implSANoRows []).err = some sqlErrNoRows ∧
    (handleSAGetCertificateByShortSerial implSANoRows []).audit = [] ∧
    (handleSAGetCertificateByShortSerial implSADiskErr []).audit =
      [errorCondition MethodGetCertificateByShortSerial "disk failure"] := by
  have h1 := C7_shortSerial_notfound_carveout implSANoRows [] "" sqlErrNoRows rfl
  have h2 := C7_shortSerial_notfound_carveout implSADiskErr [] "" "disk failure" rfl
  exact ⟨h1.1, h1.2.1 rfl, h2.2.2 (by decide)⟩

/-- C2 counterexample: a single-byte success response `2` decodes to
`false`, not `true` as the claim states — the decoding switch only maps
byte `1` to `true`. -/
theorem C2_counterexample :
    (StorageAuthorityClient.AlreadyDeniedCSR rpcByte2 ["example.com"]).value = false ∧
    (StorageAuthorityClient.AlreadyDeniedCSR rpcByte2 ["example.com"]).err = none ∧
    false ≠ true := ⟨rfl, rfl, by decide⟩

/-- C2 (amended): for a single-byte success response, byte `0` decodes to
`false`, byte `1` decodes to `true`, and any other byte also decodes to
`false` (with a nil error). -/
theorem C2_amended_boolean_byte :
    ∀ (rpc : RPCClient) (names : List String) (b : Nat) (data : Bytes),
      marshalAlreadyDeniedCSRRequest ⟨names⟩ = some data →
      rpc MethodAlreadyDeniedCSR data = ([b], none) →
      StorageAuthorityClient.AlreadyDeniedCSR rpc names = ⟨b == 1, none, []⟩ := by
  intro rpc names b data h1 h2
  unfold StorageAuthorityClient.AlreadyDeniedCSR
  rw [h1]
  simp only [h2]
  rcases b with _ | _ | n <;> simp

/-- C2 witness: the response byte `0` decodes to `false`. -/
theorem C2_witness :
    StorageAuthorityClient.AlreadyDeniedCSR rpcByte0 [] = ⟨(0 == 1), none, []⟩ :=
  C2_amended_boolean_byte rpcByte0 [] 0 _ rfl rfl

/-- C3: each of the four stubs that requires a non-empty success payload
converts an empty error-free dispatch result into a non-nil error whose
message starts with the operation name. -/
theorem C3_empty_response_is_operation_error :
    (∀ (rpc : RPCClient) (cr : CoreCertificateRequest) (regID : Int) (data : Bytes),
      marshalCertificateRequest ⟨cr, regID⟩ = some data →
      rpc MethodNewCertificate data = ([], none) →
      (RegistrationAuthorityClient.NewCertificate rpc cr regID).err =
        some (MethodNewCertificate ++ " RPC to RA failed.")) ∧
    (∀ (rpc : RPCClient) (csr : X509CertificateRequest) (regID earliestExpiry : Int)
        (data : Bytes),
      marshalIssueCertificateRequest
          (CertificateAuthorityClient.issueCertificateReq csr regID earliestExpiry) =
        some data →
      rpc MethodIssueCertificate data = ([], none) →
      (CertificateAuthorityClient.IssueCertificate rpc csr regID earliestExpiry).err =
        some (MethodIssueCertificate ++ " RPC to CA failed.")) ∧
    (∀ (rpc : RPCClient) (cert : Bytes) (regID : Int) (data : Bytes),
      marshalAddCertificateRequest ⟨cert, regID⟩ = some data →
      rpc MethodAddCertificate data = ([], none) →
      (StorageAuthorityClient.AddCertificate rpc cert regID).err =
        some (MethodAddCertificate ++ " RPC failed")) ∧
    (∀ (rpc : RPCClient) (names : List String) (data : Bytes),
      marshalAlreadyDeniedCSRRequest ⟨names⟩ = some data →
      rpc MethodAlreadyDeniedCSR data = ([], none) →
      (StorageAuthorityClient.AlreadyDeniedCSR rpc names).err =
        some (MethodAlreadyDeniedCSR ++ " RPC failed")) := by
  refine ⟨?_, ?_, ?_, ?_⟩
  · intro rpc cr regID data h1 h2
    simp [RegistrationAuthorityClient.NewCertificate, h1, h2]
    rfl
  · intro rpc csr regID earliestExpiry data h1 h2
    simp [CertificateAuthorityClient.IssueCertificate, h1, h2]
    rfl
  · intro rpc cert regID data h1 h2
    simp [StorageAuthorityClient.AddCertificate, h1, h2]
    rfl
  · intro rpc names data h1 h2
    simp [StorageAuthorityClient.AlreadyDeniedCSR, h1, h2]
    rfl

/-- C3 witness: each of the four stubs, fed an empty success response by
the transport, reports its operation-specific error. -/
theorem C3_witness :
    (RegistrationAuthorityClient.NewCertificate rpcNone DomainVal.zero 0).err =
      some (MethodNewCertificate ++ " RPC to RA failed.") ∧
    (CertificateAuthorityClient.IssueCertificate rpcNone ⟨[48]⟩ 0 0).err =
      some (MethodIssueCertificate ++ " RPC to CA failed.") ∧
    (StorageAuthorityClient.AddCertificate rpcNone [48] 0).err =
      some (MethodAddCertificate ++ " RPC failed") ∧
    (StorageAuthorityClient.AlreadyDeniedCSR rpcNone []).err =
      some (MethodAlreadyDeniedCSR ++ " RPC failed") :=
  ⟨C3_empty_response_is_operation_error.1 rpcNone DomainVal.zero 0 _ rfl rfl,
   C3_empty_response_is_operation_error.2.1 rpcNone ⟨[48]⟩ 0 0 _ rfl rfl,
   C3_empty_response_is_operation_error.2.2.1 rpcNone [48] 0 _ rfl rfl,
   C3_empty_response_is_operation_error.2.2.2 rpcNone [] _ rfl rfl⟩

/-- C1 counterexample: the CA adapter's `RevokeCertificate` handler, fed
an undecodable payload, records an Error Condition audit entry and no
Improper Message entry — against the claim that every adapter handler
classifies a decode failure as an Improper Message. -/
theorem C1_counterexample :
    unmarshalCaRevokeRequest badReq = .error "unexpected end of JSON input" ∧
    (handleCARevokeCertificate implCA0 badReq).audit =
      [errorCondition MethodRevokeCertificate "unexpected end of JSON input"] ∧
    (∀ entry ∈ (handleCARevokeCertificate implCA0 badReq).audit,
      entry.kind ≠ AuditKind.improper) :=
  ⟨rfl, rfl, by decide⟩

/-- C1 (amended): for every adapter handler with a decode step, an
undecodable payload makes the handler return the decode error, record
exactly one audit entry and never invoke the domain implementation; the
entry is an Improper Message for every handler except the CA adapter's
`RevokeCertificate` and `GenerateOCSP` handlers, which record an Error
Condition.  (The four SA handlers taking raw identifiers have no decode
step, so no payload can fail to decode for them.) -/
theorem C1_amended_improper_message :
    (∀ (impl : RegistrationAuthority) req e, unmarshalRegistrationRequest req = .error e →
      handleRANewRegistration impl req =
        ⟨[], some e, [improperMessage MethodNewRegistration e], []⟩) ∧
    (∀ (impl : RegistrationAuthority) req e, unmarshalAuthorizationRequest req = .error e →
      handleRANewAuthorization impl req =
        ⟨[], some e, [improperMessage MethodNewAuthorization e], []⟩) ∧
    (∀ (impl : RegistrationAuthority) req e, unmarshalCertificateRequest req = .error e →
      handleRANewCertificate impl req =
        ⟨[], some e, [improperMessage MethodNewCertificate e], []⟩) ∧
    (∀ (impl : RegistrationAuthority) req e,
      unmarshalUpdateRegistrationRequest req = .error e →
      handleRAUpdateRegistration impl req =
        ⟨[], some e, [improperMessage MethodUpdateRegistration e], []⟩) ∧
    (∀ (impl : RegistrationAuthority) req e,
      unmarshalUpdateAuthorizationRequest req = .error e →
      handleRAUpdateAuthorization impl req =
        ⟨[], some e, [improperMessage MethodUpdateAuthorization e], []⟩) ∧
    (∀ (impl : RegistrationAuthority) req e, parseCertificates req = .error e →
      handleRARevokeCertificate impl req =
        ⟨[], some e, [improperMessage MethodRevokeCertificate e], []⟩) ∧
    (∀ (impl : RegistrationAuthority) req e, jsonUnmarshalVal req = .error e →
      handleRAOnValidationUpdate impl req =
        ⟨[], some e, [improperMessage MethodOnValidationUpdate e], []⟩) ∧
    (∀ (impl : ValidationAuthority) req e, unmarshalUpdateValidationsRequest req = .error e →
      handleVAUpdateValidations impl req =
        ⟨[], some e, [improperMessage MethodUpdateValidations e], []⟩) ∧
    (∀ (impl : CertificateAuthority) req e,
      unmarshalIssueCertificateRequest req = .error e →
      handleCAIssueCertificate impl req =
        ⟨[], some e, [improperMessage MethodIssueCertificate e], []⟩) ∧
    (∀ (impl : CertificateAuthority) req icReq e,
      unmarshalIssueCertificateRequest req = .ok icReq →
      parseCertificateRequest icReq.Bytes = .error e →
      handleCAIssueCertificate impl req =
        ⟨[], some e, [improperMessage MethodIssueCertificate e], []⟩) ∧
    (∀ (impl : CertificateAuthority) req e, unmarshalCaRevokeRequest req = .error e →
      handleCARevokeCertificate impl req =
        ⟨[], some e, [errorCondition MethodRevokeCertificate e], []⟩) ∧
    (∀ (impl : CertificateAuthority) req e, jsonUnmarshalVal req = .error e →
      handleCAGenerateOCSP impl req =
        ⟨[], some e, [errorCondition MethodGenerateOCSP e], []⟩) ∧
    (∀ (impl : StorageAuthority) req e, jsonUnmarshalVal req = .error e →
      handleSAUpdateRegistration impl req =
        ⟨[], some e, [improperMessage MethodUpdateRegistration e], []⟩) ∧
    (∀ (impl : StorageAuthority) req e, unmarshalGetRegistrationRequest req = .error e →
      handleSAGetRegistration impl req =
        ⟨[], some e, [improperMessage MethodGetRegistration e], []⟩) ∧
    (∀ (impl : StorageAuthority) req e, jsonUnmarshalVal req = .error e →
      handleSAGetRegistrationByKey impl req =
        ⟨[], some e, [improperMessage MethodGetRegistrationByKey e], []⟩) ∧
    (∀ (impl : StorageAuthority) req e, unmarshalAddCertificateRequest req = .error e →
      handleSAAddCertificate impl req =
        ⟨[], some e, [improperMessage MethodAddCertificate e], []⟩) ∧
    (∀ (impl : StorageAuthority) req e, jsonUnmarshalVal req = .error e →
      handleSANewRegistration impl req =
        ⟨[], some e, [improperMessage MethodNewRegistration e], []⟩) ∧
    (∀ (impl : StorageAuthority) req e, jsonUnmarshalVal req = .error e →
      handleSANewPendingAuthorization impl req =
        ⟨[], some e, [improperMessage MethodNewPendingAuthorization e], []⟩) ∧
    (∀ (impl : StorageAuthority) req e, jsonUnmarshalVal req = .error e →
      handleSAUpdatePendingAuthorization impl req =
        ⟨[], some e, [improperMessage MethodUpdatePendingAuthorization e], []⟩) ∧
    (∀ (impl : StorageAuthority) req e, jsonUnmarshalVal req = .error e →
      handleSAFinalizeAuthorization impl req =
        ⟨[], some e, [improperMessage MethodFinalizeAuthorization e], []⟩) ∧
    (∀ (impl : StorageAuthority) req e, unmarshalMarkRevokedRequest req = .error e →
      handleSAMarkCertificateRevoked impl req =
        ⟨[], some e, [improperMessage MethodMarkCertificateRevoked e], []⟩) ∧
    (∀ (impl : StorageAuthority) req e, unmarshalAlreadyDeniedCSRRequest req = .error e →
      handleSAAlreadyDeniedCSR impl req =
        ⟨[], some e, [improperMessage MethodAlreadyDeniedCSR e], []⟩) := by
  refine ⟨?_, ?_, ?_, ?_, ?_, ?_, ?_, ?_, ?_, ?_, ?_, ?_, ?_, ?_, ?_, ?_, ?_, ?_, ?_, ?_,
    ?_, ?_⟩
  · intro impl req e h; simp [handleRANewRegistration, h]
  · intro impl req e h; simp [handleRANewAuthorization, h]
  · intro impl req e h; simp [handleRANewCertificate, h]
  · intro impl req e h; simp [handleRAUpdateRegistration, h]
  · intro impl req e h; simp [handleRAUpdateAuthorization, h]
  · intro impl req e h; simp [handleRARevokeCertificate, h]
  · intro impl req e h; simp [handleRAOnValidationUpdate, h]
  · intro impl req e h; simp [handleVAUpdateValidations, h]
  · intro impl req e h; simp [handleCAIssueCertificate, h]
  · intro impl req icReq e h1 h2; simp [handleCAIssueCertificate, h1, h2]
  · intro impl req e h; simp [handleCARevokeCertificate, h]
  · intro impl req e h; simp [handleCAGenerateOCSP, h]
  · intro impl req e h; simp [handleSAUpdateRegistration, h]
  · intro impl req e h; simp [handleSAGetRegistration, h]
  · intro impl req e h; simp [handleSAGetRegistrationByKey, h]
  · intro impl req e h; simp [handleSAAddCertificate, h]
  · intro impl req e h; simp [handleSANewRegistration, h]
  · intro impl req e h; simp [handleSANewPendingAuthorization, h]
  · intro impl req e h; simp [handleSAUpdatePendingAuthorization, h]
  · intro impl req e h; simp [handleSAFinalizeAuthorization, h]
  · intro impl req e h; simp [handleSAMarkCertificateRevoked, h]
  · intro impl req e h; simp [handleSAAlreadyDeniedCSR, h]

/-- C1 witness: every conjunct of the amended claim instantiated at a
concrete undecodable payload and a concrete implementation. -/
theorem C1_witness :
    handleRANewRegistration implRA0 badReq =
      ⟨[], some "unexpected end of JSON input",
       [improperMessage MethodNewRegistration "unexpected end of JSON input"], []⟩ ∧
    handleRANewAuthorization implRA0 badReq =
      ⟨[], some "unexpected end of JSON input",
       [improperMessage MethodNewAuthorization "unexpected end of JSON input"], []⟩ ∧
    handleRANewCertificate implRA0 badReq =
      ⟨[], some "unexpected end of JSON input",
       [improperMessage MethodNewCertificate "unexpected end of JSON input"], []⟩ ∧
    handleRAUpdateRegistration implRA0 badReq =
      ⟨[], some "unexpected end of JSON input",
       [improperMessage MethodUpdateRegistration "unexpected end of JSON input"], []⟩ ∧
    handleRAUpdateAuthorization implRA0 badReq =
      ⟨[], some "unexpected end of JSON input",
       [improperMessage MethodUpdateAuthorization "unexpected end of JSON input"], []⟩ ∧
    handleRARevokeCertificate implRA0 badReq =
      ⟨[], some asn1Err, [improperMessage MethodRevokeCertificate asn1Err], []⟩ ∧
    handleRAOnValidationUpdate implRA0 badReq =
      ⟨[], some "unexpected end of JSON input",
       [improperMessage MethodOnValidationUpdate "unexpected end of JSON input"], []⟩ ∧
    handleVAUpdateValidations implVA0 badReq =
      ⟨[], some "unexpected end of JSON input",
       [improperMessage MethodUpdateValidations "unexpected end of JSON input"], []⟩ ∧
    handleCAIssueCertificate implCA0 badReq =
      ⟨[], some "unexpected end of JSON input",
       [improperMessage MethodIssueCertificate "unexpected end of JSON input"], []⟩ ∧
    handleCAIssueCertificate implCA0 [6, 0] =
      ⟨[], some asn1Err, [improperMessage MethodIssueCertificate asn1Err], []⟩ ∧
    handleCARevokeCertificate implCA0 badReq =
      ⟨[], some "unexpected end of JSON input",
       [errorCondition MethodRevokeCertificate "unexpected end of JSON input"], []⟩ ∧
    handleCAGenerateOCSP implCA0 badReq =
      ⟨[], some "unexpected end of JSON input",
       [errorCondition MethodGenerateOCSP "unexpected end of JSON input"], []⟩ ∧
    handleSAUpdateRegistration implSA0 badReq =
      ⟨[], some "unexpected end of JSON input",
       [improperMessage MethodUpdateRegistration "unexpected end of JSON input"], []⟩ ∧
    handleSAGetRegistration implSA0 badReq =
      ⟨[], some "unexpected end of JSON input",
       [improperMessage MethodGetRegistration "unexpected end of JSON input"], []⟩ ∧
    handleSAGetRegistrationByKey implSA0 badReq =
      ⟨[], some "unexpected end of JSON input",
       [improperMessage MethodGetRegistrationByKey "unexpected end of JSON input"], []⟩ ∧
    handleSAAddCertificate implSA0 badReq =
      ⟨[], some "unexpected end of JSON input",
       [improperMessage MethodAddCertificate "unexpected end of JSON input"], []⟩ ∧
    handleSANewRegistration implSA0 badReq =
      ⟨[], some "unexpected end of JSON input",
       [improperMessage MethodNewRegistration "unexpected end of JSON input"], []⟩ ∧
    handleSANewPendingAuthorization implSA0 badReq =
      ⟨[], some "unexpected end of JSON input",
       [improperMessage MethodNewPendingAuthorization "unexpected end of JSON input"], []⟩ ∧
    handleSAUpdatePendingAuthorization implSA0 badReq =
      ⟨[], some "unexpected end of JSON input",
       [improperMessage MethodUpdatePendingAuthorization "unexpected end of JSON input"],
       []⟩ ∧
    handleSAFinalizeAuthorization implSA0 badReq =
      ⟨[], some "unexpected end of JSON input",
       [improperMessage MethodFinalizeAuthorization "unexpected end of JSON input"], []⟩ ∧
    handleSAMarkCertificateRevoked implSA0 badReq =
      ⟨[], some "unexpected end of JSON input",
       [improperMessage MethodMarkCertificateRevoked "unexpected end of JSON input"], []⟩ ∧
    handleSAAlreadyDeniedCSR implSA0 badReq =
      ⟨[], some "unexpected end of JSON input",
       [improperMessage MethodAlreadyDeniedCSR "unexpected end of JSON input"], []⟩ :=
  ⟨C1_amended_improper_message.1 implRA0 badReq _ rfl,
   C1_amended_improper_message.2.1 implRA0 badReq _ rfl,
   C1_amended_improper_message.2.2.1 implRA0 badReq _ rfl,
   C1_amended_improper_message.2.2.2.1 implRA0 badReq _ rfl,
   C1_amended_improper_message.2.2.2.2.1 implRA0 badReq _ rfl,
   C1_amended_improper_message.2.2.2.2.2.1 implRA0 badReq _ rfl,
   C1_amended_improper_message.2.2.2.2.2.2.1 implRA0 badReq _ rfl,
   C1_amended_improper_message.2.2.2.2.2.2.2.1 implVA0 badReq _ rfl,
   C1_amended_improper_message.2.2.2.2.2.2.2.2.1 implCA0 badReq _ rfl,
   C1_amended_improper_message.2.2.2.2.2.2.2.2.2.1 implCA0 [6, 0] ⟨[], 0, 0⟩ _ rfl rfl,
   C1_amended_improper_message.2.2.2.2.2.2.2.2.2.2.1 implCA0 badReq _ rfl,
   C1_amended_improper_message.2.2.2.2.2.2.2.2.2.2.2.1 implCA0 badReq _ rfl,
   C1_amended_improper_message.2.2.2.2.2.2.2.2.2.2.2.2.1 implSA0 badReq _ rfl,
   C1_amended_improper_message.2.2.2.2.2.2.2.2.2.2.2.2.2.1 implSA0 badReq _ rfl,
   C1_amended_improper_message.2.2.2.2.2.2.2.2.2.2.2.2.2.2.1 implSA0 badReq _ rfl,
   C1_amended_improper_message.2.2.2.2.2.2.2.2.2.2.2.2.2.2.2.1 implSA0 badReq _ rfl,
   C1_amended_improper_message.2.2.2.2.2.2.2.2.2.2.2.2.2.2.2.2.1 implSA0 badReq _ rfl,
   C1_amended_improper_message.2.2.2.2.2.2.2.2.2.2.2.2.2.2.2.2.2.1 implSA0 badReq _ rfl,
   C1_amended_improper_message.2.2.2.2.2.2.2.2.2.2.2.2.2.2.2.2.2.2.1 implSA0 badReq _ rfl,
   C1_amended_improper_message.2.2.2.2.2.2.2.2.2.2.2.2.2.2.2.2.2.2.2.1 implSA0 badReq _ rfl,
   C1_amended_improper_message.2.2.2.2.2.2.2.2.2.2.2.2.2.2.2.2.2.2.2.2.1 implSA0 badReq _
     rfl,
   C1_amended_improper_message.2.2.2.2.2.2.2.2.2.2.2.2.2.2.2.2.2.2.2.2.2 implSA0 badReq _
     rfl⟩

/-- C6 counterexample: on a transport error, `StorageAuthorityClient.NewRegistration`
returns a newly constructed generic error, not the dispatch error — against
the claim that every stub propagates the transport error unchanged. -/
theorem C6_counterexample :
    StorageAuthorityClient.NewRegistration rpcBoom DomainVal.zero =
      ⟨DomainVal.zero, some "NewRegistration RPC failed", []⟩ ∧
    some "NewRegistration RPC failed" ≠ some "boom" := ⟨rfl, by decide⟩

/-- C6 (amended): when `DispatchSync` fails, every stub method returns the
transport error unchanged and records no audit entry — except
`StorageAuthorityClient`'s `NewRegistration`, `NewPendingAuthorization`,
`AddCertificate` and `AlreadyDeniedCSR`, which replace it with a generic
operation-named error (still without auditing), and
`ValidationAuthorityClient.UpdateValidations`, which discards it and
reports success. -/
theorem C6_amended_transport_error_propagation :
    (∀ (rpc : RPCClient) reg data resp e, marshalRegistrationRequest ⟨reg⟩ = some data →
      rpc MethodNewRegistration data = (resp, some e) →
      RegistrationAuthorityClient.NewRegistration rpc reg = ⟨DomainVal.zero, some e, []⟩) ∧
    (∀ (rpc : RPCClient) authz regID data resp e,
      marshalAuthorizationRequest ⟨authz, regID⟩ = some data →
      rpc MethodNewAuthorization data = (resp, some e) →
      RegistrationAuthorityClient.NewAuthorization rpc authz regID =
        ⟨DomainVal.zero, some e, []⟩) ∧
    (∀ (rpc : RPCClient) cr regID data resp e,
      marshalCertificateRequest ⟨cr, regID⟩ = some data →
      rpc MethodNewCertificate data = (resp, some e) →
      RegistrationAuthorityClient.NewCertificate rpc cr regID =
        ⟨DomainVal.zero, some e, []⟩) ∧
    (∀ (rpc : RPCClient) base update data resp e,
      marshalUpdateRegistrationRequest ⟨base, update⟩ = some data →
      rpc MethodUpdateRegistration data = (resp, some e) →
      RegistrationAuthorityClient.UpdateRegistration rpc base update =
        ⟨DomainVal.zero, some e, []⟩) ∧
    (∀ (rpc : RPCClient) authz index response data resp e,
      marshalUpdateAuthorizationRequest ⟨authz, index, response⟩ = some data →
      rpc MethodUpdateAuthorization data = (resp, some e) →
      RegistrationAuthorityClient.UpdateAuthorization rpc authz index response =
        ⟨DomainVal.zero, some e, []⟩) ∧
    (∀ (rpc : RPCClient) (cert : X509Certificate) resp e,
      rpc MethodRevokeCertificate cert.Raw = (resp, some e) →
      RegistrationAuthorityClient.RevokeCertificate rpc cert = ⟨(), some e, []⟩) ∧
    (∀ (rpc : RPCClient) authz data resp e, jsonMarshalVal authz = some data →
      rpc MethodOnValidationUpdate data = (resp, some e) →
      RegistrationAuthorityClient.OnValidationUpdate rpc authz = ⟨(), some e, []⟩) ∧
    (∀ (rpc : RPCClient) csr regID earliestExpiry data resp e,
      marshalIssueCertificateRequest
          (CertificateAuthorityClient.issueCertificateReq csr regID earliestExpiry) =
        some data →
      rpc MethodIssueCertificate data = (resp, some e) →
      CertificateAuthorityClient.IssueCertificate rpc csr regID earliestExpiry =
        ⟨DomainVal.zero, some e, []⟩) ∧
    (∀ (rpc : RPCClient) serial reasonCode data resp e,
      marshalCaRevokeRequest ⟨serial, reasonCode⟩ = some data →
      rpc MethodRevokeCertificate data = (resp, some e) →
      CertificateAuthorityClient.RevokeCertificate rpc serial reasonCode =
        ⟨(), some e, []⟩) ∧
    (∀ (rpc : RPCClient) signRequest data resp e, jsonMarshalVal signRequest = some data →
      rpc MethodGenerateOCSP data = (resp, some e) →
      CertificateAuthorityClient.GenerateOCSP rpc signRequest = ⟨resp, some e, []⟩) ∧
    (∀ (rpc : RPCClient) id data resp e, marshalGetRegistrationRequest ⟨id⟩ = some data →
      rpc MethodGetRegistration data = (resp, some e) →
      StorageAuthorityClient.GetRegistration rpc id = ⟨DomainVal.zero, some e, []⟩) ∧
    (∀ (rpc : RPCClient) key data resp e, jsonMarshalVal key = some data →
      rpc MethodGetRegistrationByKey data = (resp, some e) →
      StorageAuthorityClient.GetRegistrationByKey rpc key =
        ⟨DomainVal.zero, some e, []⟩) ∧
    (∀ (rpc : RPCClient) id resp e, rpc MethodGetAuthorization (strBytes id) = (resp, some e) →
      StorageAuthorityClient.GetAuthorization rpc id = ⟨DomainVal.zero, some e, []⟩) ∧
    (∀ (rpc : RPCClient) id resp e, rpc MethodGetCertificate (strBytes id) = (resp, some e) →
      StorageAuthorityClient.GetCertificate rpc id = ⟨resp, some e, []⟩) ∧
    (∀ (rpc : RPCClient) id resp e,
      rpc MethodGetCertificateByShortSerial (strBytes id) = (resp, some e) →
      StorageAuthorityClient.GetCertificateByShortSerial rpc id = ⟨resp, some e, []⟩) ∧
    (∀ (rpc : RPCClient) id resp e,
      rpc MethodGetCertificateStatus (strBytes id) = (resp, some e) →
      StorageAuthorityClient.GetCertificateStatus rpc id = ⟨DomainVal.zero, some e, []⟩) ∧
    (∀ (rpc : RPCClient) serial ocsp reasonCode data resp e,
      marshalMarkRevokedRequest ⟨serial, ocsp, reasonCode⟩ = some data →
      rpc MethodMarkCertificateRevoked data = (resp, some e) →
      StorageAuthorityClient.MarkCertificateRevoked rpc serial ocsp reasonCode =
        ⟨(), some e, []⟩) ∧
    (∀ (rpc : RPCClient) reg data resp e, jsonMarshalVal reg = some data →
      rpc MethodUpdateRegistration data = (resp, some e) →
      StorageAuthorityClient.UpdateRegistration rpc reg = ⟨(), some e, []⟩) ∧
    (∀ (rpc : RPCClient) authz data resp e, jsonMarshalVal authz = some data →
      rpc MethodUpdatePendingAuthorization data = (resp, some e) →
      StorageAuthorityClient.UpdatePendingAuthorization rpc authz = ⟨(), some e, []⟩) ∧
    (∀ (rpc : RPCClient) authz data resp e, jsonMarshalVal authz = some data →
      rpc MethodFinalizeAuthorization data = (resp, some e) →
      StorageAuthorityClient.FinalizeAuthorization rpc authz = ⟨(), some e, []⟩) ∧
    (∀ (rpc : RPCClient) reg data resp e, jsonMarshalVal reg = some data →
      rpc MethodNewRegistration data = (resp, some e) →
      StorageAuthorityClient.NewRegistration rpc reg =
        ⟨DomainVal.zero, some "NewRegistration RPC failed", []⟩) ∧
    (∀ (rpc : RPCClient) authz data resp e, jsonMarshalVal authz = some data →
      rpc MethodNewPendingAuthorization data = (resp, some e) →
      StorageAuthorityClient.NewPendingAuthorization rpc authz =
        ⟨DomainVal.zero, some "NewPendingAuthorization RPC failed", []⟩) ∧
    (∀ (rpc : RPCClient) cert regID data resp e,
      marshalAddCertificateRequest ⟨cert, regID⟩ = some data →
      rpc MethodAddCertificate data = (resp, some e) →
      StorageAuthorityClient.AddCertificate rpc cert regID =
        ⟨"", some "AddCertificate RPC failed", []⟩) ∧
    (∀ (rpc : RPCClient) names data resp e,
      marshalAlreadyDeniedCSRRequest ⟨names⟩ = some data →
      rpc MethodAlreadyDeniedCSR data = (resp, some e) →
      StorageAuthorityClient.AlreadyDeniedCSR rpc names =
        ⟨false, some "AlreadyDeniedCSR RPC failed", []⟩) ∧
    (∀ (rpc : RPCClient) authz index data resp e,
      marshalUpdateValidationsRequest ⟨authz, index⟩ = some data →
      rpc MethodUpdateValidations data = (resp, some e) →
      ValidationAuthorityClient.UpdateValidations rpc authz index = ⟨(), none, []⟩) := by
  refine ⟨?_, ?_, ?_, ?_, ?_, ?_, ?_, ?_, ?_, ?_, ?_, ?_, ?_, ?_, ?_, ?_, ?_, ?_, ?_, ?_,
    ?_, ?_, ?_, ?_, ?_⟩
  · intro rpc reg data resp e h1 h2
    simp [RegistrationAuthorityClient.NewRegistration, h1, h2]
  · intro rpc authz regID data resp e h1 h2
    simp [RegistrationAuthorityClient.NewAuthorization, h1, h2]
  · intro rpc cr regID data resp e h1 h2
    simp [RegistrationAuthorityClient.NewCertificate, h1, h2]
  · intro rpc base update data resp e h1 h2
    simp [RegistrationAuthorityClient.UpdateRegistration, h1, h2]
  · intro rpc authz index response data resp e h1 h2
    simp [RegistrationAuthorityClient.UpdateAuthorization, h1, h2]
  · intro rpc cert resp e h
    simp [RegistrationAuthorityClient.RevokeCertificate, h]
  · intro rpc authz data resp e h1 h2
    simp [RegistrationAuthorityClient.OnValidationUpdate, h1, h2]
  · intro rpc csr regID earliestExpiry data resp e h1 h2
    simp [CertificateAuthorityClient.IssueCertificate, h1, h2]
  · intro rpc serial reasonCode data resp e h1 h2
    simp [CertificateAuthorityClient.RevokeCertificate, h1, h2]
  · intro rpc signRequest data resp e h1 h2
    simp [CertificateAuthorityClient.GenerateOCSP, h1, h2]
  · intro rpc id data resp e h1 h2
    simp [StorageAuthorityClient.GetRegistration, h1, h2]
  · intro rpc key data resp e h1 h2
    simp [StorageAuthorityClient.GetRegistrationByKey, h1, h2]
  · intro rpc id resp e h
    simp [StorageAuthorityClient.GetAuthorization, h]
  · intro rpc id resp e h
    simp [StorageAuthorityClient.GetCertificate, h]
  · intro rpc id resp e h
    simp [StorageAuthorityClient.GetCertificateByShortSerial, h]
  · intro rpc id resp e h
    simp [StorageAuthorityClient.GetCertificateStatus, h]
  · intro rpc serial ocsp reasonCode data resp e h1 h2
    simp [StorageAuthorityClient.MarkCertificateRevoked, h1, h2]
  · intro rpc reg data resp e h1 h2
    simp [StorageAuthorityClient.UpdateRegistration, h1, h2]
  · intro rpc authz data resp e h1 h2
    simp [StorageAuthorityClient.UpdatePendingAuthorization, h1, h2]
  · intro rpc authz data resp e h1 h2
    simp [StorageAuthorityClient.FinalizeAuthorization, h1, h2]
  · intro rpc reg data resp e h1 h2
    simp [StorageAuthorityClient.NewRegistration, h1, h2]
  · intro rpc authz data resp e h1 h2
    simp [StorageAuthorityClient.NewPendingAuthorization, h1, h2]
  · intro rpc cert regID data resp e h1 h2
    simp [StorageAuthorityClient.AddCertificate, h1, h2]
  · intro rpc names data resp e h1 h2
    simp [StorageAuthorityClient.AlreadyDeniedCSR, h1, h2]
  · intro rpc authz index data resp e h1 h2
    simp [ValidationAuthorityClient.UpdateValidations, h1]

/-- C6 witness: every conjunct of the amended claim instantiated with the
always-failing transport at concrete arguments. -/
theorem C6_witness :
    RegistrationAuthorityClient.NewRegistration rpcBoom DomainVal.zero =
      ⟨DomainVal.zero, some "boom", []⟩ ∧
    RegistrationAuthorityClient.NewAuthorization rpcBoom DomainVal.zero 0 =
      ⟨DomainVal.zero, some "boom", []⟩ ∧
    RegistrationAuthorityClient.NewCertificate rpcBoom DomainVal.zero 0 =
      ⟨DomainVal.zero, some "boom", []⟩ ∧
    RegistrationAuthorityClient.UpdateRegistration rpcBoom DomainVal.zero DomainVal.zero =
      ⟨DomainVal.zero, some "boom", []⟩ ∧
    RegistrationAuthorityClient.UpdateAuthorization rpcBoom DomainVal.zero 0 DomainVal.zero =
      ⟨DomainVal.zero, some "boom", []⟩ ∧
    RegistrationAuthorityClient.RevokeCertificate rpcBoom ⟨[48]⟩ = ⟨(), some "boom", []⟩ ∧
    RegistrationAuthorityClient.OnValidationUpdate rpcBoom DomainVal.zero =
      ⟨(), some "boom", []⟩ ∧
    CertificateAuthorityClient.IssueCertificate rpcBoom ⟨[48]⟩ 0 0 =
      ⟨DomainVal.zero, some "boom", []⟩ ∧
    CertificateAuthorityClient.RevokeCertificate rpcBoom "" 0 = ⟨(), some "boom", []⟩ ∧
    CertificateAuthorityClient.GenerateOCSP rpcBoom DomainVal.zero = ⟨[], some "boom", []⟩ ∧
    StorageAuthorityClient.GetRegistration rpcBoom 0 = ⟨DomainVal.zero, some "boom", []⟩ ∧
    StorageAuthorityClient.GetRegistrationByKey rpcBoom DomainVal.zero =
      ⟨DomainVal.zero, some "boom", []⟩ ∧
    StorageAuthorityClient.GetAuthorization rpcBoom "" = ⟨DomainVal.zero, some "boom", []⟩ ∧
    StorageAuthorityClient.GetCertificate rpcBoom "" = ⟨[], some "boom", []⟩ ∧
    StorageAuthorityClient.GetCertificateByShortSerial rpcBoom "" =
      ⟨[], some "boom", []⟩ ∧
    StorageAuthorityClient.GetCertificateStatus rpcBoom "" =
      ⟨DomainVal.zero, some "boom", []⟩ ∧
    StorageAuthorityClient.MarkCertificateRevoked rpcBoom "" [] 0 = ⟨(), some "boom", []⟩ ∧
    StorageAuthorityClient.UpdateRegistration rpcBoom DomainVal.zero =
      ⟨(), some "boom", []⟩ ∧
    StorageAuthorityClient.UpdatePendingAuthorization rpcBoom DomainVal.zero =
      ⟨(), some "boom", []⟩ ∧
    StorageAuthorityClient.FinalizeAuthorization rpcBoom DomainVal.zero =
      ⟨(), some "boom", []⟩ ∧
    StorageAuthorityClient.NewRegistration rpcBoom DomainVal.zero =
      ⟨DomainVal.zero, some "NewRegistration RPC failed", []⟩ ∧
    StorageAuthorityClient.NewPendingAuthorization rpcBoom DomainVal.zero =
      ⟨DomainVal.zero, some "NewPendingAuthorization RPC failed", []⟩ ∧
    StorageAuthorityClient.AddCertificate rpcBoom [] 0 =
      ⟨"", some "AddCertificate RPC failed", []⟩ ∧
    StorageAuthorityClient.AlreadyDeniedCSR rpcBoom [] =
      ⟨false, some "AlreadyDeniedCSR RPC failed", []⟩ ∧
    ValidationAuthorityClient.UpdateValidations rpcBoom DomainVal.zero 0 =
      ⟨(), none, []⟩ :=
  ⟨C6_amended_transport_error_propagation.1 rpcBoom DomainVal.zero _ [] "boom" rfl rfl,
   C6_amended_transport_error_propagation.2.1 rpcBoom DomainVal.zero 0 _ [] "boom" rfl rfl,
   C6_amended_transport_error_propagation.2.2.1 rpcBoom DomainVal.zero 0 _ [] "boom" rfl
     rfl,
   C6_amended_transport_error_propagation.2.2.2.1 rpcBoom DomainVal.zero DomainVal.zero _
     [] "boom" rfl rfl,
   C6_amended_transport_error_propagation.2.2.2.2.1 rpcBoom DomainVal.zero 0
     DomainVal.zero _ [] "boom" rfl rfl,
   C6_amended_transport_error_propagation.2.2.2.2.2.1 rpcBoom ⟨[48]⟩ [] "boom" rfl,
   C6_amended_transport_error_propagation.2.2.2.2.2.2.1 rpcBoom DomainVal.zero _ [] "boom"
     rfl rfl,
   C6_amended_transport_error_propagation.2.2.2.2.2.2.2.1 rpcBoom ⟨[48]⟩ 0 0 _ [] "boom"
     rfl rfl,
   C6_amended_transport_error_propagation.2.2.2.2.2.2.2.2.1 rpcBoom "" 0 _ [] "boom" rfl
     rfl,
   C6_amended_transport_error_propagation.2.2.2.2.2.2.2.2.2.1 rpcBoom DomainVal.zero _ []
     "boom" rfl rfl,
   C6_amended_transport_error_propagation.2.2.2.2.2.2.2.2.2.2.1 rpcBoom 0 _ [] "boom" rfl
     rfl,
   C6_amended_transport_error_propagation.2.2.2.2.2.2.2.2.2.2.2.1 rpcBoom DomainVal.zero _
     [] "boom" rfl rfl,
   C6_amended_transport_error_propagation.2.2.2.2.2.2.2.2.2.2.2.2.1 rpcBoom "" [] "boom"
     rfl,
   C6_amended_transport_error_propagation.2.2.2.2.2.2.2.2.2.2.2.2.2.1 rpcBoom "" [] "boom"
     rfl,
   C6_amended_transport_error_propagation.2.2.2.2.2.2.2.2.2.2.2.2.2.2.1 rpcBoom "" []
     "boom" rfl,
   C6_amended_transport_error_propagation.2.2.2.2.2.2.2.2.2.2.2.2.2.2.2.1 rpcBoom "" []
     "boom" rfl,
   C6_amended_transport_error_propagation.2.2.2.2.2.2.2.2.2.2.2.2.2.2.2.2.1 rpcBoom "" []
     0 _ [] "boom" rfl rfl,
   C6_amended_transport_error_propagation.2.2.2.2.2.2.2.2.2.2.2.2.2.2.2.2.2.1 rpcBoom
     DomainVal.zero _ [] "boom" rfl rfl,
   C6_amended_transport_error_propagation.2.2.2.2.2.2.2.2.2.2.2.2.2.2.2.2.2.2.1 rpcBoom
     DomainVal.zero _ [] "boom" rfl rfl,
   C6_amended_transport_error_propagation.2.2.2.2.2.2.2.2.2.2.2.2.2.2.2.2.2.2.2.1 rpcBoom
     DomainVal.zero _ [] "boom" rfl rfl,
   C6_amended_transport_error_propagation.2.2.2.2.2.2.2.2.2.2.2.2.2.2.2.2.2.2.2.2.1
     rpcBoom DomainVal.zero _ [] "boom" rfl rfl,
   C6_amended_transport_error_propagation.2.2.2.2.2.2.2.2.2.2.2.2.2.2.2.2.2.2.2.2.2.1
     rpcBoom DomainVal.zero _ [] "boom" rfl rfl,
   C6_amended_transport_error_propagation.2.2.2.2.2.2.2.2.2.2.2.2.2.2.2.2.2.2.2.2.2.2.1
     rpcBoom [] 0 _ [] "boom" rfl rfl,
   C6_amended_transport_error_propagation.2.2.2.2.2.2.2.2.2.2.2.2.2.2.2.2.2.2.2.2.2.2.2.1
     rpcBoom [] _ [] "boom" rfl rfl,
   C6_amended_transport_error_propagation.2.2.2.2.2.2.2.2.2.2.2.2.2.2.2.2.2.2.2.2.2.2.2.2
     rpcBoom DomainVal.zero 0 _ [] "boom" rfl rfl⟩

/-- A well-formed `IssueCertificate` request payload: CSR bytes `[48]`,
registration ID `7`, zero expiry. -/
def icReqBytes : Bytes := (marshalIssueCertificateRequest ⟨[48], 7, 0⟩).getD []

/-- C4 evaluation: the CA adapter's `IssueCertificate` encode-failure
audit entry and the CA client's `GenerateOCSP` marshal-failure audit entry
both carry the operation name `GetRegistration` instead of their own —
the source passes `MethodGetRegistration` at both call sites. -/
theorem C4_code_eval :
    (handleCAIssueCertificate implCABadCert icReqBytes).audit =
      [errorCondition MethodGetRegistration jsonMarshalErr] ∧
    (CertificateAuthorityClient.GenerateOCSP rpcNone ⟨.unrepresentable 0⟩).audit =
      [errorCondition MethodGetRegistration jsonMarshalErr] ∧
    MethodGetRegistration ≠ MethodIssueCertificate ∧
    MethodGetRegistration ≠ MethodGenerateOCSP :=
  ⟨rfl, rfl, by decide, by decide⟩

/-- C5 evaluation: the `IssueCertificate` stub never writes the caller's
`earliestExpiry` into the request — the stub's behaviour is independent of
that argument, and the payload it dispatches decodes on the adapter side
with `EarliestExpiry = 0`, not the supplied `99`. -/
theorem C5_code_eval :
    (∀ earliestExpiry : Int,
      CertificateAuthorityClient.issueCertificateReq ⟨[48]⟩ 7 earliestExpiry =
        ⟨[48], 7, 0⟩) ∧
    (∀ (rpc : RPCClient) (earliestExpiry : Int),
      CertificateAuthorityClient.IssueCertificate rpc ⟨[48]⟩ 7 earliestExpiry =
        CertificateAuthorityClient.IssueCertificate rpc ⟨[48]⟩ 7 0) ∧
    (unmarshalIssueCertificateRequest ((marshalIssueCertificateRequest
        (CertificateAuthorityClient.issueCertificateReq ⟨[48]⟩ 7 99)).getD []) =
      .ok ⟨[48], 7, 0⟩) ∧
    (99 : Int) ≠ 0 :=
  ⟨fun _ => rfl, fun _ _ => rfl, rfl, by decide⟩

/-- C9 counterexample: the stub-side encoding of an `IssueCertificate`
request followed by the adapter-side decoding does not restore the
caller's `earliestExpiry` — the decoded value is the zero time. -/
theorem C9_counterexample :
    ∃ icReq, unmarshalIssueCertificateRequest
        ((marshalIssueCertificateRequest
          (CertificateAuthorityClient.issueCertificateReq ⟨[48]⟩ 7 99)).getD []) =
      .ok icReq ∧ icReq.EarliestExpiry ≠ 99 :=
  ⟨⟨[48], 7, 0⟩, rfl, by decide⟩

/-- C9 (amended): for every operation, the stub-side request encoding
followed by the adapter-side decoding restores the original well-formed
arguments, and the adapter-side response encoding followed by the
stub-side decoding restores the original domain result — with one
exception: the `IssueCertificate` request restores the CSR bytes and the
registration ID but decodes `EarliestExpiry` to the zero time regardless
of the value the caller supplied.  Conjunct 1 covers every payload that is
a single opaque domain record, in both directions (requests of RA
`OnValidationUpdate`; SA `UpdateRegistration`, `NewRegistration`,
`NewPendingAuthorization`, `UpdatePendingAuthorization`,
`FinalizeAuthorization`, `GetRegistrationByKey`, CA `GenerateOCSP`; and
every structured response).  Conjunct 15 covers the raw string payloads
(SA identifier requests, the `AddCertificate` serial response and the raw
certificate responses). -/
theorem C9_amended_roundtrip :
    (∀ v, wfVal v → ∃ data, jsonMarshalVal v = some data ∧
      jsonUnmarshalVal data = .ok v) ∧
    (∀ reg, wfVal reg → ∃ data, marshalRegistrationRequest ⟨reg⟩ = some data ∧
      unmarshalRegistrationRequest data = .ok ⟨reg⟩) ∧
    (∀ authz regID, wfVal authz →
      ∃ data, marshalAuthorizationRequest ⟨authz, regID⟩ = some data ∧
        unmarshalAuthorizationRequest data = .ok ⟨authz, regID⟩) ∧
    (∀ cr regID, wfVal cr →
      ∃ data, marshalCertificateRequest ⟨cr, regID⟩ = some data ∧
        unmarshalCertificateRequest data = .ok ⟨cr, regID⟩) ∧
    (∀ base update, wfVal base → wfVal update →
      ∃ data, marshalUpdateRegistrationRequest ⟨base, update⟩ = some data ∧
        unmarshalUpdateRegistrationRequest data = .ok ⟨base, update⟩) ∧
    (∀ authz index response, wfVal authz → wfVal response →
      ∃ data, marshalUpdateAuthorizationRequest ⟨authz, index, response⟩ = some data ∧
        unmarshalUpdateAuthorizationRequest data = .ok ⟨authz, index, response⟩) ∧
    (∀ authz index, wfVal authz →
      ∃ data, marshalUpdateValidationsRequest ⟨authz, index⟩ = some data ∧
        unmarshalUpdateValidationsRequest data = .ok ⟨authz, index⟩) ∧
    (∀ (csr : X509CertificateRequest) regID earliestExpiry, derOk csr.Raw →
      ∃ data, marshalIssueCertificateRequest
          (CertificateAuthorityClient.issueCertificateReq csr regID earliestExpiry) =
        some data ∧
        unmarshalIssueCertificateRequest data = .ok ⟨csr.Raw, regID, 0⟩ ∧
        parseCertificateRequest csr.Raw = .ok csr) ∧
    (∀ serial reasonCode, ∃ data, marshalCaRevokeRequest ⟨serial, reasonCode⟩ = some data ∧
      unmarshalCaRevokeRequest data = .ok ⟨serial, reasonCode⟩) ∧
    (∀ id, ∃ data, marshalGetRegistrationRequest ⟨id⟩ = some data ∧
      unmarshalGetRegistrationRequest data = .ok ⟨id⟩) ∧
    (∀ cert regID, ∃ data, marshalAddCertificateRequest ⟨cert, regID⟩ = some data ∧
      unmarshalAddCertificateRequest data = .ok ⟨cert, regID⟩) ∧
    (∀ serial ocsp reasonCode,
      ∃ data, marshalMarkRevokedRequest ⟨serial, ocsp, reasonCode⟩ = some data ∧
        unmarshalMarkRevokedRequest data = .ok ⟨serial, ocsp, reasonCode⟩) ∧
    (∀ names, ∃ data, marshalAlreadyDeniedCSRRequest ⟨names⟩ = some data ∧
      unmarshalAlreadyDeniedCSRRequest data = .ok ⟨names⟩) ∧
    (∀ (cert : X509Certificate), derOk cert.Raw →
      parseCertificates cert.Raw = .ok [cert]) ∧
    (∀ s : String, bytesStr (strBytes s) = s) ∧
    (∀ (rpc : RPCClient) signRequest data resp, jsonMarshalVal signRequest = some data →
      rpc MethodGenerateOCSP data = (resp, none) →
      CertificateAuthorityClient.GenerateOCSP rpc signRequest = ⟨resp, none, []⟩) ∧
    (∀ (rpc : RPCClient) names data (b : Bool),
      marshalAlreadyDeniedCSRRequest ⟨names⟩ = some data →
      rpc MethodAlreadyDeniedCSR data = ((if b then [1] else [0]), none) →
      StorageAuthorityClient.AlreadyDeniedCSR rpc names = ⟨b, none, []⟩) := by
  refine ⟨rtVal, ?_, ?_, ?_, ?_, ?_, ?_, ?_, ?_, ?_, ?_, ?_, ?_, ?_, bytesStr_strBytes,
    ?_, ?_⟩
  · intro reg hw
    obtain ⟨j, rfl⟩ := hw
    refine ⟨serJ (.jobj [("Reg", j)]), rfl, ?_⟩
    unfold unmarshalRegistrationRequest
    rw [jsonUnmarshal_ser]
    rfl
  · intro authz regID hw
    obtain ⟨j, rfl⟩ := hw
    refine ⟨serJ (.jobj [("Authz", j), ("RegID", .jnum regID)]), rfl, ?_⟩
    unfold unmarshalAuthorizationRequest
    rw [jsonUnmarshal_ser]
    rfl
  · intro cr regID hw
    obtain ⟨j, rfl⟩ := hw
    refine ⟨serJ (.jobj [("Req", j), ("RegID", .jnum regID)]), rfl, ?_⟩
    unfold unmarshalCertificateRequest
    rw [jsonUnmarshal_ser]
    rfl
  · intro base update hwb hwu
    obtain ⟨jb, rfl⟩ := hwb
    obtain ⟨ju, rfl⟩ := hwu
    refine ⟨serJ (.jobj [("Base", jb), ("Update", ju)]), rfl, ?_⟩
    unfold unmarshalUpdateRegistrationRequest
    rw [jsonUnmarshal_ser]
    rfl
  · intro authz index response hwa hwr
    obtain ⟨ja, rfl⟩ := hwa
    obtain ⟨jc, rfl⟩ := hwr
    refine ⟨serJ (.jobj [("Authz", ja), ("Index", .jnum index), ("Response", jc)]),
      rfl, ?_⟩
    unfold unmarshalUpdateAuthorizationRequest
    rw [jsonUnmarshal_ser]
    rfl
  · intro authz index hw
    obtain ⟨ja, rfl⟩ := hw
    refine ⟨serJ (.jobj [("Authz", ja), ("Index", .jnum index)]), rfl, ?_⟩
    unfold unmarshalUpdateValidationsRequest
    rw [jsonUnmarshal_ser]
    rfl
  · intro csr regID earliestExpiry hder
    refine ⟨serJ (.jobj [("Bytes", .jbytes csr.Raw), ("RegID", .jnum regID),
      ("EarliestExpiry", .jnum 0)]), rfl, ?_, ?_⟩
    · unfold unmarshalIssueCertificateRequest
      rw [jsonUnmarshal_ser]
      rfl
    · unfold parseCertificateRequest
      rw [hder]
  · intro serial reasonCode
    refine ⟨serJ (.jobj [("Serial", .jstr serial), ("ReasonCode", .jnum reasonCode)]),
      rfl, ?_⟩
    unfold unmarshalCaRevokeRequest
    rw [jsonUnmarshal_ser]
    rfl
  · intro id
    refine ⟨serJ (.jobj [("ID", .jnum id)]), rfl, ?_⟩
    unfold unmarshalGetRegistrationRequest
    rw [jsonUnmarshal_ser]
    rfl
  · intro cert regID
    refine ⟨serJ (.jobj [("Bytes", .jbytes cert), ("RegID", .jnum regID)]), rfl, ?_⟩
    unfold unmarshalAddCertificateRequest
    rw [jsonUnmarshal_ser]
    rfl
  · intro serial ocsp reasonCode
    refine ⟨serJ (.jobj [("Serial", .jstr serial), ("OCSPResponse", .jbytes ocsp),
      ("ReasonCode", .jnum reasonCode)]), rfl, ?_⟩
    unfold unmarshalMarkRevokedRequest
    rw [jsonUnmarshal_ser]
    rfl
  · intro names
    refine ⟨serJ (.jobj [("Names", .jarr (names.map .jstr))]), rfl, ?_⟩
    unfold unmarshalAlreadyDeniedCSRRequest
    rw [jsonUnmarshal_ser]
    simp [alreadyDeniedCSRRequest.ofJVal, asObj, jlookup, jStrList, jStrElems_map]
  · intro cert hder
    unfold parseCertificates
    rw [hder]
  · intro rpc signRequest data resp h1 h2
    simp [CertificateAuthorityClient.GenerateOCSP, h1, h2]
  · intro rpc names data b h1 h2
    unfold StorageAuthorityClient.AlreadyDeniedCSR
    rw [h1]
    simp only [h2]
    cases b <;> simp

/-- C9 witness: the hypothesis-bearing conjuncts of the amended round-trip
claim instantiated at concrete well-formed values. -/
theorem C9_witness :
    (∃ data, jsonMarshalVal DomainVal.zero = some data ∧
      jsonUnmarshalVal data = .ok DomainVal.zero) ∧
    (∃ data, marshalRegistrationRequest ⟨DomainVal.zero⟩ = some data ∧
      unmarshalRegistrationRequest data = .ok ⟨DomainVal.zero⟩) ∧
    (∃ data, marshalAuthorizationRequest ⟨DomainVal.zero, 5⟩ = some data ∧
      unmarshalAuthorizationRequest data = .ok ⟨DomainVal.zero, 5⟩) ∧
    (∃ data, marshalCertificateRequest ⟨DomainVal.zero, 5⟩ = some data ∧
      unmarshalCertificateRequest data = .ok ⟨DomainVal.zero, 5⟩) ∧
    (∃ data, marshalUpdateRegistrationRequest ⟨DomainVal.zero, DomainVal.zero⟩ =
        some data ∧
      unmarshalUpdateRegistrationRequest data = .ok ⟨DomainVal.zero, DomainVal.zero⟩) ∧
    (∃ data, marshalUpdateAuthorizationRequest ⟨DomainVal.zero, 2, DomainVal.zero⟩ =
        some data ∧
      unmarshalUpdateAuthorizationRequest data = .ok ⟨DomainVal.zero, 2, DomainVal.zero⟩) ∧
    (∃ data, marshalUpdateValidationsRequest ⟨DomainVal.zero, 2⟩ = some data ∧
      unmarshalUpdateValidationsRequest data = .ok ⟨DomainVal.zero, 2⟩) ∧
    (∃ data, marshalIssueCertificateRequest
        (CertificateAuthorityClient.issueCertificateReq ⟨[48]⟩ 7 99) = some data ∧
      unmarshalIssueCertificateRequest data = .ok ⟨[48], 7, 0⟩ ∧
      parseCertificateRequest [48] = .ok ⟨[48]⟩) ∧
    parseCertificates [48] = .ok [⟨[48]⟩] ∧
    (CertificateAuthorityClient.GenerateOCSP rpcNone DomainVal.zero = ⟨[], none, []⟩) ∧
    (StorageAuthorityClient.AlreadyDeniedCSR rpcByte0 [] = ⟨false, none, []⟩) :=
  ⟨C9_amended_roundtrip.1 DomainVal.zero ⟨.jnull, rfl⟩,
   C9_amended_roundtrip.2.1 DomainVal.zero ⟨.jnull, rfl⟩,
   C9_amended_roundtrip.2.2.1 DomainVal.zero 5 ⟨.jnull, rfl⟩,
   C9_amended_roundtrip.2.2.2.1 DomainVal.zero 5 ⟨.jnull, rfl⟩,
   C9_amended_roundtrip.2.2.2.2.1 DomainVal.zero DomainVal.zero ⟨.jnull, rfl⟩
     ⟨.jnull, rfl⟩,
   C9_amended_roundtrip.2.2.2.2.2.1 DomainVal.zero 2 DomainVal.zero ⟨.jnull, rfl⟩
     ⟨.jnull, rfl⟩,
   C9_amended_roundtrip.2.2.2.2.2.2.1 DomainVal.zero 2 ⟨.jnull, rfl⟩,
   C9_amended_roundtrip.2.2.2.2.2.2.2.1 ⟨[48]⟩ 7 99 rfl,
   C9_amended_roundtrip.2.2.2.2.2.2.2.2.2.2.2.2.2.1 ⟨[48]⟩ rfl,
   C9_amended_roundtrip.2.2.2.2.2.2.2.2.2.2.2.2.2.2.2.1 rpcNone DomainVal.zero _ [] rfl
     rfl,
   C9_amended_roundtrip.2.2.2.2.2.2.2.2.2.2.2.2.2.2.2.2 rpcByte0 [] _ false rfl rfl⟩
